import Mathlib

/-!
# The impellerc driver (`impeller/compiler/impellerc_main.cc`)

A shallow embedding of the shader-compilation driver.  Every function of
`impellerc_main.cc` is a Lean function of the same name that threads an explicit
`World` (the file store, the trace of file-system primitive calls, the trace of
compiler constructions and the two diagnostic streams).  Collaborators whose
sources are not part of the translation unit (the `Compiler` constructor, the
`RuntimeStageData` aggregator, `std::filesystem`, `fml::FileMapping`) are taken
as parameters, gathered in `Externals` and `RuntimeStageDataOps`.

A function result of type `Option Bool` is `some b` when the C++ function returns
`b` and `none` when the C++ execution has no defined result (a failed
`FML_DCHECK`, `front()` of an empty vector, a null `Reflector` dereference).
Diagnostic lines are recorded without the quoting that `operator<<` applies to a
path.
-/

namespace impeller.compiler

/-! ## Data model -/

/-- A `std::filesystem::path`, kept as its UTF-8 text. -/
abbrev Path := String

/-- The bytes behind an `fml::Mapping`. -/
abbrev Mapping := List Nat

/-- The `TargetPlatform` enumeration, by the integer value of the enumerator. -/
abbrev TargetPlatform := Nat

/-- The fields of `SourceOptions` the driver reads or writes. -/
structure SourceOptions where
  target_platform : TargetPlatform
  entry_point_name : String
  deriving DecidableEq, Repr

/-- `Reflector::Options`, as filled in by `CreateReflectorOptions`. -/
structure ReflectorOptions where
  target_platform : TargetPlatform
  entry_point_name : String
  shader_name : String
  header_file_name : String
  deriving DecidableEq, Repr

/-- One `RuntimeStageData::Shader` record as handed from the reflector to the
aggregator; the driver never looks inside it. -/
structure Shader where
  target_platform : TargetPlatform
  entrypoint : String
  shader : Mapping
  deriving DecidableEq, Repr

/-- What the driver asks of a `Reflector`. `GetRuntimeStageShaderData` may be
null and is tested by `OutputIPLR`; the three reflection mappings are
dereferenced unguarded by `OutputReflectionData`. -/
structure Reflector where
  GetRuntimeStageShaderData : Option Shader
  GetReflectionJSON : Mapping
  GetReflectionHeader : Mapping
  GetReflectionCC : Mapping

/-- What the driver asks of a constructed `Compiler`. `GetReflector` is a raw
pointer that may be null. -/
structure Compiler where
  IsValid : Bool
  GetErrorMessages : String
  GetReflector : Option Reflector
  GetSPIRVAssembly : Mapping
  GetSLShaderSource : Mapping
  CreateDepfileContents : List String → Mapping

/-- The members of `Switches` read by `impellerc_main.cc`. `AreValid`,
`PlatformsToCompile` and `CreateSourceOptions` hold what the member functions of
those names return; `working_directory` is the directory behind the descriptor. -/
structure Switches where
  AreValid : Bool
  working_directory : Path
  source_file_name : Path
  sl_file_name : Path
  spirv_file_name : Path
  reflection_json_name : Path
  reflection_header_name : Path
  reflection_cc_name : Path
  depfile_path : Path
  iplr : Bool
  json_format : Bool
  shader_bundle : String
  PlatformsToCompile : List TargetPlatform
  CreateSourceOptions : SourceOptions

/-- An `fml::CommandLine` as `Main` sees it: whether it has the option `help`, and
the `Switches` constructed from it. -/
structure CommandLine where
  HasOption_help : Bool
  switches : Switches

/-- A file of the file store: its bytes and its permission bits. -/
structure FileEntry where
  content : Mapping
  mode : Nat
  deriving DecidableEq, Repr

/-- The file store, by the name a file is opened under. -/
abbrev FileSystem := Path → Option FileEntry

/-- One call of a file-system primitive, with its arguments and its result. -/
inductive FsOp where
  | write (base_directory : Path) (file_name : Path) (data : Mapping) (ok : Bool)
  | permissions (path : Path) (ok : Bool)
  deriving DecidableEq, Repr

/-- The result flag recorded in a primitive call. -/
def FsOp.ok : FsOp → Bool
  | .write _ _ _ ok => ok
  | .permissions _ ok => ok

/-- Whether a primitive call is a call of the atomic-write primitive. -/
def FsOp.isWrite : FsOp → Bool
  | .write _ _ _ _ => true
  | .permissions _ _ => false

/-- The path handed to the primitive. -/
def FsOp.path : FsOp → Path
  | .write _ file_name _ _ => file_name
  | .permissions p _ => p

/-- One construction of a `Compiler`: its three constructor arguments. -/
structure Invocation where
  source : Mapping
  options : SourceOptions
  reflector_options : ReflectorOptions
  deriving DecidableEq, Repr

/-- Everything the driver can change. The traces list the oldest entry first. -/
structure World where
  files : FileSystem
  fsops : List FsOp
  compiles : List Invocation
  cerr : List String
  cout : List String

/-- Append one line to `std::cerr`. -/
def World.err (w : World) (line : String) : World :=
  { w with cerr := w.cerr ++ [line] }

/-- Append one line to `std::cout`. -/
def World.out (w : World) (line : String) : World :=
  { w with cout := w.cout ++ [line] }

/-- The interface of `RuntimeStageData` (`runtime_stage_data.h`), over a state
type `σ`. -/
structure RuntimeStageDataOps (σ : Type) where
  init : σ
  AddShader : σ → Shader → σ
  CreateMapping : σ → Option Mapping
  CreateJsonMapping : σ → Option Mapping

/-- The collaborators of the driver that live outside `impellerc_main.cc`. -/
structure Externals where
  /-- The `Compiler` constructor. -/
  Compile : Mapping → SourceOptions → ReflectorOptions → Compiler
  /-- The function `fml::FileMapping::CreateReadOnly`; `none` is the null mapping. -/
  CreateReadOnly : String → Option Mapping
  InferShaderNameFromPath : Path → String
  TargetPlatformToString : TargetPlatform → String
  /-- The member `std::filesystem::path::filename`. -/
  filename : Path → Path
  /-- The function `std::filesystem::current_path`. -/
  current_path : Path
  /-- The function `std::filesystem::absolute`. -/
  absolute : Path → Path
  /-- The path concatenation `operator/`. -/
  join : Path → Path → Path
  GenerateShaderBundle : Switches → World → Option Bool × World
  /-- The text `Switches::PrintHelp` prints. -/
  PrintHelp : String
  /-- Whether a call of the atomic-write primitive succeeds, given the world it is
  issued in, the base directory, the file name and the data. -/
  writeSucceeds : World → Path → Path → Mapping → Bool
  /-- Whether `std::filesystem::permissions` succeeds on a path. -/
  permissionsSucceed : World → Path → Bool
  /-- The permission bits a freshly written file gets from the process umask. -/
  creationMode : Nat

/-- The conversion `Utf8FromPath`: a path is already kept as its UTF-8 text. -/
def Utf8FromPath (p : Path) : String := p

/-- The file store with the file `name` replaced by `e`. -/
def storeFile (fs : FileSystem) (name : Path) (e : FileEntry) : FileSystem :=
  fun p => if p = name then some e else fs p

/-- Modelled from the spec: `fml::WriteAtomically` (`flutter/fml/file.h`, not part
of the sources). The write either fails and leaves the file store as it was, or
succeeds and the file of that name holds exactly the new bytes; a freshly
written file carries the creation mode. Every call is recorded in the trace. -/
def WriteAtomically (ext : Externals) (w : World) (base_directory : Path)
    (file_name : String) (data : Mapping) : Bool × World :=
  let ok := ext.writeSucceeds w base_directory file_name data
  (ok, { w with
    files := if ok then storeFile w.files file_name ⟨data, ext.creationMode⟩ else w.files
    fsops := w.fsops ++ [FsOp.write base_directory file_name data ok] })

/-- The access mode `SetPermissiveAccess` sets: owner read and write, group read,
others read. -/
def permissiveMode : Nat := 0o644

/-- Modelled from the spec: `SetPermissiveAccess` (`impeller/compiler/utilities.h`,
not part of the sources). It sets the fixed access mode on the file at `p`
and reports whether `std::filesystem::permissions` succeeded; on failure the
file store is as it was. Every call is recorded in the trace. -/
def SetPermissiveAccess (ext : Externals) (w : World) (p : Path) : Bool × World :=
  let ok := ext.permissionsSucceed w p
  (ok, { w with
    files := if ok then
        fun q => if q = p then (w.files q).map (fun f => { f with mode := permissiveMode })
          else w.files q
      else w.files
    fsops := w.fsops ++ [FsOp.permissions p ok]
    cerr := if ok then w.cerr else w.cerr ++ ["Failed to set access on file " ++ p] })

/-! ## The driver -/

/-- The static function `CreateReflectorOptions`. -/
def CreateReflectorOptions (ext : Externals) (options : SourceOptions)
    (switches : Switches) : ReflectorOptions :=
  { target_platform := options.target_platform
    entry_point_name := options.entry_point_name
    shader_name := ext.InferShaderNameFromPath switches.source_file_name
    header_file_name := Utf8FromPath (ext.filename switches.reflection_header_name) }

/-- The two statements `SourceOptions options = switches.CreateSourceOptions();
options.target_platform = platform;`. -/
def platformOptions (switches : Switches) (platform : TargetPlatform) : SourceOptions :=
  { switches.CreateSourceOptions with target_platform := platform }

/-- The invocation `Compiler compiler(source_file_mapping, options,
reflector_options)` for one platform, as a trace entry. -/
def invocationFor (ext : Externals) (switches : Switches) (source_file_mapping : Mapping)
    (platform : TargetPlatform) : Invocation :=
  { source := source_file_mapping
    options := platformOptions switches platform
    reflector_options := CreateReflectorOptions ext (platformOptions switches platform) switches }

/-- The `Compiler` object that invocation yields. -/
def compilerFor (ext : Externals) (switches : Switches) (source_file_mapping : Mapping)
    (platform : TargetPlatform) : Compiler :=
  ext.Compile source_file_mapping (platformOptions switches platform)
    (CreateReflectorOptions ext (platformOptions switches platform) switches)

/-- Record one compiler construction in the trace. -/
def World.invoke (w : World) (i : Invocation) : World :=
  { w with compiles := w.compiles ++ [i] }

/-- The `for` loop of `OutputIPLR` over the platforms still to compile. The first
component is `none` when the loop body executed `return false`, and the
aggregator after the last platform otherwise. -/
def OutputIPLR_loop {σ : Type} (ext : Externals) (ops : RuntimeStageDataOps σ)
    (switches : Switches) (source_file_mapping : Mapping) :
    List TargetPlatform → σ → World → Option σ × World
  | [], stages, w => (some stages, w)
  | platform :: rest, stages, w =>
    let compiler := compilerFor ext switches source_file_mapping platform
    let w := w.invoke (invocationFor ext switches source_file_mapping platform)
    if !compiler.IsValid then
      (none, (w.err ("Compilation failed for target: " ++
        ext.TargetPlatformToString platform)).err compiler.GetErrorMessages)
    else
      match compiler.GetReflector with
      | none => (none, w.err "Could not create reflector.")
      | some reflector =>
        match reflector.GetRuntimeStageShaderData with
        | none => (none, w.err "Runtime stage information was nil.")
        | some stage_data =>
          OutputIPLR_loop ext ops switches source_file_mapping rest
            (ops.AddShader stages stage_data) w

/-- The expression `switches.json_format ? stages.CreateJsonMapping() :
stages.CreateMapping()`. -/
def stageDataMapping {σ : Type} (ops : RuntimeStageDataOps σ) (switches : Switches)
    (stages : σ) : Option Mapping :=
  if switches.json_format then ops.CreateJsonMapping stages else ops.CreateMapping stages

/-- The static function `OutputIPLR`. -/
def OutputIPLR {σ : Type} (ext : Externals) (ops : RuntimeStageDataOps σ)
    (switches : Switches) (source_file_mapping : Mapping) (w : World) :
    Option Bool × World :=
  -- FML_DCHECK(switches.iplr)
  if !switches.iplr then (none, w)
  else
    match OutputIPLR_loop ext ops switches source_file_mapping
        switches.PlatformsToCompile ops.init w with
    | (none, w) => (some false, w)
    | (some stages, w) =>
      match stageDataMapping ops switches stages with
      | none => (some false, w.err "Runtime stage data could not be created.")
      | some stage_data_mapping =>
        let r := WriteAtomically ext w switches.working_directory
          (Utf8FromPath switches.sl_file_name) stage_data_mapping
        if !r.1 then
          (some false, r.2.err ("Could not write file to " ++ switches.sl_file_name))
        else
          -- Tools that consume the runtime stage data expect the access mode to
          -- be 0644.
          let p := SetPermissiveAccess ext r.2 switches.sl_file_name
          if !p.1 then (some false, p.2) else (some true, p.2)

/-- The static function `OutputSLFile`. -/
def OutputSLFile (ext : Externals) (compiler : Compiler) (switches : Switches)
    (w : World) : Bool × World :=
  let sl_file_name := ext.absolute (ext.join ext.current_path switches.sl_file_name)
  let r := WriteAtomically ext w switches.working_directory (Utf8FromPath sl_file_name)
    compiler.GetSLShaderSource
  if !r.1 then (false, r.2.err ("Could not write file to " ++ switches.sl_file_name))
  else (true, r.2)

/-- The third block of `OutputReflectionData`: the reflection translation unit. -/
def OutputReflectionData_cc (ext : Externals) (compiler : Compiler) (switches : Switches)
    (w : World) : Option Bool × World :=
  if switches.reflection_cc_name ≠ "" then
    let reflection_cc_name :=
      ext.absolute (ext.join ext.current_path switches.reflection_cc_name)
    match compiler.GetReflector with
    | none => (none, w)
    | some reflector =>
      let r := WriteAtomically ext w switches.working_directory
        (Utf8FromPath reflection_cc_name) reflector.GetReflectionCC
      if !r.1 then
        (some false, r.2.err ("Could not write reflection CC to " ++
          switches.reflection_cc_name))
      else (some true, r.2)
  else (some true, w)

/-- The second block of `OutputReflectionData` and what follows it: the
reflection header. -/
def OutputReflectionData_header (ext : Externals) (compiler : Compiler)
    (switches : Switches) (w : World) : Option Bool × World :=
  if switches.reflection_header_name ≠ "" then
    let reflection_header_name :=
      ext.absolute (ext.join ext.current_path switches.reflection_header_name)
    match compiler.GetReflector with
    | none => (none, w)
    | some reflector =>
      let r := WriteAtomically ext w switches.working_directory
        (Utf8FromPath reflection_header_name) reflector.GetReflectionHeader
      if !r.1 then
        (some false, r.2.err ("Could not write reflection header to " ++
          switches.reflection_header_name))
      else OutputReflectionData_cc ext compiler switches r.2
  else OutputReflectionData_cc ext compiler switches w

/-- The static function `OutputReflectionData` (its `options` argument is unused
in the source as well). -/
def OutputReflectionData (ext : Externals) (compiler : Compiler) (switches : Switches)
    (_options : SourceOptions) (w : World) : Option Bool × World :=
  if switches.reflection_json_name ≠ "" then
    let reflection_json_name :=
      ext.absolute (ext.join ext.current_path switches.reflection_json_name)
    match compiler.GetReflector with
    | none => (none, w)
    | some reflector =>
      let r := WriteAtomically ext w switches.working_directory
        (Utf8FromPath reflection_json_name) reflector.GetReflectionJSON
      if !r.1 then
        (some false, r.2.err ("Could not write reflection json to " ++
          switches.reflection_json_name))
      else OutputReflectionData_header ext compiler switches r.2
  else OutputReflectionData_header ext compiler switches w

/-- The static function `OutputDepfile`. -/
def OutputDepfile (ext : Externals) (compiler : Compiler) (switches : Switches)
    (w : World) : Bool × World :=
  if switches.depfile_path ≠ "" then
    let result_file := Utf8FromPath switches.sl_file_name
    let depfile_path := ext.absolute (ext.join ext.current_path switches.depfile_path)
    let r := WriteAtomically ext w switches.working_directory (Utf8FromPath depfile_path)
      (compiler.CreateDepfileContents [result_file])
    if !r.1 then (false, r.2.err ("Could not write depfile to " ++ switches.depfile_path))
    else (true, r.2)
  else (true, w)

/-- The statements of `Main` from the SPIR-V write to the end, for the compiler
built by `Main`. -/
def Main_outputs (ext : Externals) (compiler : Compiler) (switches : Switches)
    (options : SourceOptions) (w : World) : Option Bool × World :=
  let spriv_file_name := ext.absolute (ext.join ext.current_path switches.spirv_file_name)
  let r := WriteAtomically ext w switches.working_directory (Utf8FromPath spriv_file_name)
    compiler.GetSPIRVAssembly
  if !r.1 then (some false, r.2.err ("Could not write file to " ++ switches.spirv_file_name))
  else
    -- `!switches.iplr && !OutputSLFile(compiler, switches)`
    let s := if !switches.iplr then OutputSLFile ext compiler switches r.2 else (true, r.2)
    if !s.1 then (some false, s.2)
    else
      match OutputReflectionData ext compiler switches options s.2 with
      | (none, w) => (none, w)
      | (some false, w) => (some false, w)
      | (some true, w) =>
        let d := OutputDepfile ext compiler switches w
        if !d.1 then (some false, d.2) else (some true, d.2)

/-- The statements of `Main` after the `OutputIPLR` step: one compiler for the
first platform of `PlatformsToCompile()`, then the outputs. -/
def Main_single (ext : Externals) (switches : Switches) (source_file_mapping : Mapping)
    (w : World) : Option Bool × World :=
  match switches.PlatformsToCompile with
  | [] => (none, w)  -- `front()` of an empty vector
  | front :: _ =>
    let options := platformOptions switches front
    let compiler := compilerFor ext switches source_file_mapping front
    let w := w.invoke (invocationFor ext switches source_file_mapping front)
    if !compiler.IsValid then
      (some false, (w.err "Compilation failed.").err compiler.GetErrorMessages)
    else Main_outputs ext compiler switches options w

/-- The function `Main`. `fml::InstallCrashHandler()` changes nothing the model
tracks. -/
def Main {σ : Type} (ext : Externals) (ops : RuntimeStageDataOps σ)
    (command_line : CommandLine) (w : World) : Option Bool × World :=
  if command_line.HasOption_help then (some true, w.out ext.PrintHelp)
  else
    let switches := command_line.switches
    if !switches.AreValid then
      (some false, (w.err "Invalid flags specified.").err ext.PrintHelp)
    else if switches.shader_bundle ≠ "" then ext.GenerateShaderBundle switches w
    else
      match ext.CreateReadOnly (Utf8FromPath switches.source_file_name) with
      | none => (some false, w.err "Could not open input file.")
      | some source_file_mapping =>
        -- `switches.iplr && !OutputIPLR(switches, source_file_mapping)`
        if switches.iplr then
          match OutputIPLR ext ops switches source_file_mapping w with
          | (none, w) => (none, w)
          | (some false, w) => (some false, w)
          | (some true, w) => Main_single ext switches source_file_mapping w
        else Main_single ext switches source_file_mapping w

/-! ## A concrete environment

A small instance of every collaborator, on which the driver can be run. -/

/-- A reflector holding stage data for `platform`. -/
def demoReflector (platform : TargetPlatform) : Reflector :=
  { GetRuntimeStageShaderData := if platform = 3 then none else some ⟨platform, "main", [platform]⟩
    GetReflectionJSON := [21]
    GetReflectionHeader := [22]
    GetReflectionCC := [23] }

/-- A compiler that rejects platform `1`, has no reflector on platform `2` and no
stage data on platform `3`. -/
def demoCompile (_source : Mapping) (options : SourceOptions) (_r : ReflectorOptions) :
    Compiler :=
  { IsValid := options.target_platform != 1
    GetErrorMessages := "error"
    GetReflector :=
      if options.target_platform = 2 then none else some (demoReflector options.target_platform)
    GetSPIRVAssembly := [10]
    GetSLShaderSource := [11]
    CreateDepfileContents := fun _ => [12] }

/-- POSIX `operator/`: an absolute right operand replaces the left one. -/
def demoJoin (a b : Path) : Path :=
  match b.data with
  | '/' :: _ => b
  | _ => a ++ "/" ++ b

/-- The collaborators of the concrete environment: writes fail on the directory
`/cwd/` and on `/cwd/full`, the permission change fails on `locked.iplr`. -/
def demoExternals : Externals :=
  { Compile := demoCompile
    CreateReadOnly := fun p => if p = "missing.frag" then none else some [7]
    InferShaderNameFromPath := fun p => p
    TargetPlatformToString := fun _ => "platform"
    filename := fun p => p
    current_path := "/cwd"
    absolute := fun p => p
    join := demoJoin
    GenerateShaderBundle := fun _ w => (some true, w)
    PrintHelp := "usage"
    writeSucceeds := fun _ _ name _ => name != "/cwd/" && name != "/cwd/full"
    permissionsSucceed := fun _ p => p != "locked.iplr"
    creationMode := 0o600 }

/-- An aggregator that appends, and cannot encode a record of platform `9`. -/
def demoStageData : RuntimeStageDataOps (List Shader) :=
  { init := []
    AddShader := fun stages s => stages ++ [s]
    CreateMapping := fun stages =>
      if stages.any (fun s => s.target_platform == 9) then none
      else some (0 :: stages.map (fun s => s.target_platform))
    CreateJsonMapping := fun stages =>
      if stages.any (fun s => s.target_platform == 9) then none
      else some (1 :: stages.map (fun s => s.target_platform)) }

/-- Switches of the concrete environment for a given mode, platform list and
native-source path; all four optional outputs are enabled. -/
def demoSwitches (iplr : Bool) (platforms : List TargetPlatform) (sl : Path) : Switches :=
  { AreValid := true
    working_directory := "/cwd"
    source_file_name := "shader.frag"
    sl_file_name := sl
    spirv_file_name := "out.spirv"
    reflection_json_name := "out.json"
    reflection_header_name := "out.h"
    reflection_cc_name := "out.cc"
    depfile_path := "out.d"
    iplr := iplr
    json_format := false
    shader_bundle := ""
    PlatformsToCompile := platforms
    CreateSourceOptions := ⟨0, "main"⟩ }

/-- The world before the run: no file, empty traces. -/
def emptyWorld : World :=
  { files := fun _ => none, fsops := [], compiles := [], cerr := [], cout := [] }

/-! ## Vocabulary of the statements -/

/-- Platform `p` compiles to a valid result that has a reflector with stage data. -/
def compilesWithStageData (ext : Externals) (switches : Switches) (source : Mapping)
    (p : TargetPlatform) : Prop :=
  ∃ r s, (compilerFor ext switches source p).IsValid = true ∧
    (compilerFor ext switches source p).GetReflector = some r ∧
    r.GetRuntimeStageShaderData = some s

/-- One of the three checks of the loop body fails on platform `p`. -/
def stepFails (ext : Externals) (switches : Switches) (source : Mapping)
    (p : TargetPlatform) : Prop :=
  (compilerFor ext switches source p).IsValid = false ∨
  (compilerFor ext switches source p).GetReflector = none ∨
  ∃ r, (compilerFor ext switches source p).GetReflector = some r ∧
    r.GetRuntimeStageShaderData = none

/-- The path `std::filesystem::absolute(std::filesystem::current_path() / p)`. -/
def resolved (ext : Externals) (p : Path) : Path :=
  ext.absolute (ext.join ext.current_path p)

/-- One artifact the driver means to write: the path it hands to the primitive,
the bytes, and the line it prints when the write fails. -/
structure Artifact where
  path : Path
  data : Mapping
  complaint : String

/-- The call of the atomic-write primitive for an artifact, with its result. -/
def Artifact.attempt (base_directory : Path) (a : Artifact) (ok : Bool) : FsOp :=
  FsOp.write base_directory a.path a.data ok

/-- The raw byte code (SPIR-V assembly) artifact. -/
def spirvArtifact (ext : Externals) (sw : Switches) (c : Compiler) : Artifact :=
  ⟨resolved ext sw.spirv_file_name, c.GetSPIRVAssembly,
    "Could not write file to " ++ sw.spirv_file_name⟩

/-- The native-source artifact. -/
def slArtifact (ext : Externals) (sw : Switches) (c : Compiler) : Artifact :=
  ⟨resolved ext sw.sl_file_name, c.GetSLShaderSource,
    "Could not write file to " ++ sw.sl_file_name⟩

/-- The reflection translation unit, when its path is not empty. -/
def reflectionCCArtifacts (ext : Externals) (sw : Switches) (r : Reflector) : List Artifact :=
  if sw.reflection_cc_name ≠ "" then
    [⟨resolved ext sw.reflection_cc_name, r.GetReflectionCC,
      "Could not write reflection CC to " ++ sw.reflection_cc_name⟩]
  else []

/-- The reflection header, when its path is not empty. -/
def reflectionHeaderArtifacts (ext : Externals) (sw : Switches) (r : Reflector) :
    List Artifact :=
  if sw.reflection_header_name ≠ "" then
    [⟨resolved ext sw.reflection_header_name, r.GetReflectionHeader,
      "Could not write reflection header to " ++ sw.reflection_header_name⟩]
  else []

/-- The reflection JSON, when its path is not empty. -/
def reflectionJsonArtifacts (ext : Externals) (sw : Switches) (r : Reflector) :
    List Artifact :=
  if sw.reflection_json_name ≠ "" then
    [⟨resolved ext sw.reflection_json_name, r.GetReflectionJSON,
      "Could not write reflection json to " ++ sw.reflection_json_name⟩]
  else []

/-- The enabled reflection artifacts, in the order JSON, header, source. -/
def reflectionArtifacts (ext : Externals) (sw : Switches) (r : Reflector) : List Artifact :=
  reflectionJsonArtifacts ext sw r ++
    (reflectionHeaderArtifacts ext sw r ++ reflectionCCArtifacts ext sw r)

/-- The dependency file, when its path is not empty. -/
def depfileArtifacts (ext : Externals) (sw : Switches) (c : Compiler) : List Artifact :=
  if sw.depfile_path ≠ "" then
    [⟨resolved ext sw.depfile_path, c.CreateDepfileContents [Utf8FromPath sw.sl_file_name],
      "Could not write depfile to " ++ sw.depfile_path⟩]
  else []

/-- The artifacts of a run after its compile, in the fixed order: raw byte code,
native source (direct mode only), reflection JSON, header and source, depfile. -/
def outputArtifacts (ext : Externals) (sw : Switches) (c : Compiler) (r : Reflector) :
    List Artifact :=
  spirvArtifact ext sw c ::
    ((if sw.iplr then [] else [slArtifact ext sw c]) ++
      (reflectionArtifacts ext sw r ++ depfileArtifacts ext sw c))

/-- Fail-fast writing of a list of artifacts: each in turn, stopping with `false`
and the complaint at the first write that fails. -/
def writeInOrder (ext : Externals) (base_directory : Path) :
    List Artifact → World → Bool × World
  | [], w => (true, w)
  | a :: rest, w =>
    let r := WriteAtomically ext w base_directory a.path a.data
    if !r.1 then (false, r.2.err a.complaint)
    else writeInOrder ext base_directory rest r.2

/-- The file store after the artifacts of a list have all been written. -/
def storeArtifacts (creationMode : Nat) (fs : FileSystem) (written : List Artifact) :
    FileSystem :=
  written.foldl (fun fs a => storeFile fs a.path ⟨a.data, creationMode⟩) fs

/-- The results of the attempted writes of a fail-fast sequence in which `n`
writes succeeded and the outcome was `b`: `n` successes, then one failure
when the outcome is `false`. -/
def attemptResults (n : Nat) (b : Bool) : List Bool :=
  List.replicate n true ++ (if b then [] else [false])

/-- Modelled from the spec: the Runtime Stage Aggregator (`RuntimeStageData`, whose
source `runtime_stage_data.cc` is not part of the sources). It keeps the
stage-data records in order of arrival, at most one per platform, a later
record of a platform replacing the earlier one; serializing the empty set fails,
and serializing a non-empty set is left to the two encoders, which may fail on
a malformed record. -/
def specRuntimeStageData (encode encodeJson : List Shader → Option Mapping) :
    RuntimeStageDataOps (List Shader) :=
  { init := []
    AddShader := fun stages s =>
      stages.filter (fun t => t.target_platform != s.target_platform) ++ [s]
    CreateMapping := fun stages => if stages.isEmpty then none else encode stages
    CreateJsonMapping := fun stages => if stages.isEmpty then none else encodeJson stages }

/-- Switches of the concrete environment in direct mode with the reflection header
and the depfile disabled. -/
def demoSwitchesFewer : Switches :=
  { demoSwitches false [0, 4] "out.sl" with reflection_header_name := "", depfile_path := "" }

/-- Switches of the concrete environment that `AreValid` rejects. -/
def demoSwitchesInvalid : Switches :=
  { demoSwitches false [0, 4] "out.sl" with AreValid := false }

/-- Switches of the concrete environment whose source file cannot be opened. -/
def demoSwitchesMissing : Switches :=
  { demoSwitches false [0, 4] "out.sl" with source_file_name := "missing.frag" }

/-! ## Properties of the compile loop -/

theorem World.invoke_fsops (w : World) (i : Invocation) : (w.invoke i).fsops = w.fsops := rfl

theorem World.invoke_files (w : World) (i : Invocation) : (w.invoke i).files = w.files := rfl

theorem World.err_fsops (w : World) (s : String) : (w.err s).fsops = w.fsops := rfl

theorem World.err_files (w : World) (s : String) : (w.err s).files = w.files := rfl

theorem World.err_compiles (w : World) (s : String) : (w.err s).compiles = w.compiles := rfl

theorem World.invoke_compiles (w : World) (i : Invocation) :
    (w.invoke i).compiles = w.compiles ++ [i] := rfl

/-- The loop touches neither the file store nor the primitive trace. -/
theorem OutputIPLR_loop_fs {σ : Type} (ext : Externals) (ops : RuntimeStageDataOps σ)
    (sw : Switches) (m : Mapping) (P : List TargetPlatform) :
    ∀ (stages : σ) (w : World),
      (OutputIPLR_loop ext ops sw m P stages w).2.fsops = w.fsops ∧
      (OutputIPLR_loop ext ops sw m P stages w).2.files = w.files := by
  induction P with
  | nil => intro stages w; exact ⟨rfl, rfl⟩
  | cons p rest ih =>
    intro stages w
    simp only [OutputIPLR_loop]
    split
    · exact ⟨rfl, rfl⟩
    · split
      · exact ⟨rfl, rfl⟩
      · split
        · exact ⟨rfl, rfl⟩
        · exact ih _ _

/-- The loop fails as soon as one platform of the list fails a check. -/
theorem OutputIPLR_loop_fails {σ : Type} (ext : Externals) (ops : RuntimeStageDataOps σ)
    (sw : Switches) (m : Mapping) (P : List TargetPlatform) :
    ∀ (stages : σ) (w : World), (∃ p ∈ P, stepFails ext sw m p) →
      (OutputIPLR_loop ext ops sw m P stages w).1 = none := by
  induction P with
  | nil => intro stages w h; obtain ⟨p, hp, _⟩ := h; cases hp
  | cons p rest ih =>
    intro stages w h
    simp only [OutputIPLR_loop]
    split
    · rfl
    · rename_i hv
      split
      · rfl
      · rename_i r hr
        split
        · rfl
        · rename_i s hs
          apply ih
          obtain ⟨q, hq, hf⟩ := h
          rcases List.mem_cons.mp hq with rfl | hq
          · exfalso
            rcases hf with hf | hf | ⟨r2, hr2, hs2⟩
            · simp [hf] at hv
            · rw [hf] at hr; cases hr
            · rw [hr2] at hr; cases hr; rw [hs2] at hs; cases hs
          · exact ⟨q, hq, hf⟩

/-- The loop constructs compilers for the platforms up to and including the first
invalid one, in order, and then fails. -/
theorem OutputIPLR_loop_stops {σ : Type} (ext : Externals) (ops : RuntimeStageDataOps σ)
    (sw : Switches) (m : Mapping) (P : List TargetPlatform) :
    ∀ (k : Nat) (q : TargetPlatform) (stages : σ) (w : World),
      P[k]? = some q →
      (∀ p ∈ P.take k, compilesWithStageData ext sw m p) →
      (compilerFor ext sw m q).IsValid = false →
      (OutputIPLR_loop ext ops sw m P stages w).1 = none ∧
      (OutputIPLR_loop ext ops sw m P stages w).2.compiles =
        w.compiles ++ (P.take (k + 1)).map (invocationFor ext sw m) := by
  induction P with
  | nil => intro k q stages w hk; simp at hk
  | cons p rest ih =>
    intro k q stages w hk hgood hbad
    cases k with
    | zero =>
      simp only [List.getElem?_cons_zero, Option.some.injEq] at hk
      subst hk
      simp [OutputIPLR_loop, hbad, World.err_compiles, World.invoke_compiles]
    | succ k =>
      simp only [List.getElem?_cons_succ] at hk
      obtain ⟨r, s, hv, hr, hs⟩ := hgood p (by simp)
      have hrest : ∀ p ∈ rest.take k, compilesWithStageData ext sw m p := by
        intro p' hp'
        exact hgood p' (by simp [List.take_succ_cons, hp'])
      have h := ih k q (ops.AddShader stages s)
        (w.invoke (invocationFor ext sw m p)) hk hrest hbad
      simp only [OutputIPLR_loop, hv, hr, hs]
      simp only [Bool.not_true, Bool.false_eq_true, if_false]
      refine ⟨h.1, ?_⟩
      rw [h.2]
      simp [World.invoke_compiles, List.take_succ_cons]


/-- When a platform fails a check or the serialization yields no mapping,
`OutputIPLR` returns false without calling a file-system primitive. -/
theorem OutputIPLR_failure {σ : Type} (ext : Externals) (ops : RuntimeStageDataOps σ)
    (sw : Switches) (m : Mapping) (w : World) (hiplr : sw.iplr = true)
    (hfail : (∃ p ∈ sw.PlatformsToCompile, stepFails ext sw m p) ∨
      (∀ stages w1, OutputIPLR_loop ext ops sw m sw.PlatformsToCompile ops.init w =
        (some stages, w1) → stageDataMapping ops sw stages = none)) :
    (OutputIPLR ext ops sw m w).1 = some false ∧
    (OutputIPLR ext ops sw m w).2.fsops = w.fsops ∧
    (OutputIPLR ext ops sw m w).2.files = w.files := by
  have hfs := OutputIPLR_loop_fs ext ops sw m sw.PlatformsToCompile ops.init w
  unfold OutputIPLR
  simp only [hiplr, Bool.not_true, Bool.false_eq_true, if_false]
  rcases hloop : OutputIPLR_loop ext ops sw m sw.PlatformsToCompile ops.init w with ⟨o, w1⟩
  rw [hloop] at hfs
  cases o with
  | none => exact ⟨rfl, hfs.1, hfs.2⟩
  | some stages =>
    have hnone : stageDataMapping ops sw stages = none := by
      rcases hfail with hf | hf
      · have := OutputIPLR_loop_fails ext ops sw m sw.PlatformsToCompile ops.init w hf
        rw [hloop] at this
        cases this
      · exact hf stages w1 hloop
    simp only [hnone]
    exact ⟨trivial, hfs.1, hfs.2⟩

/-- C1 (amended): in packaged (iplr) mode, for every platform list `P` and every
index `k` such that the compiler is valid with a reflector and stage data for
`P[0..k-1]` and invalid for `P[k]`, `OutputIPLR` constructs the compiler for
exactly `P[0], ..., P[k]` in that order, returns false, constructs no compiler
for a later platform and calls no file-system primitive. -/
theorem OutputIPLR_stops_at_first_invalid {σ : Type} (ext : Externals)
    (ops : RuntimeStageDataOps σ) (sw : Switches) (m : Mapping) (w : World)
    (k : Nat) (q : TargetPlatform)
    (hiplr : sw.iplr = true)
    (hk : sw.PlatformsToCompile[k]? = some q)
    (hgood : ∀ p ∈ sw.PlatformsToCompile.take k, compilesWithStageData ext sw m p)
    (hbad : (compilerFor ext sw m q).IsValid = false) :
    (OutputIPLR ext ops sw m w).1 = some false ∧
    (OutputIPLR ext ops sw m w).2.compiles =
      w.compiles ++ (sw.PlatformsToCompile.take (k + 1)).map (invocationFor ext sw m) ∧
    (OutputIPLR ext ops sw m w).2.fsops = w.fsops := by
  have hloop := OutputIPLR_loop_stops ext ops sw m sw.PlatformsToCompile k q ops.init w
    hk hgood hbad
  have hfs := OutputIPLR_loop_fs ext ops sw m sw.PlatformsToCompile ops.init w
  unfold OutputIPLR
  simp only [hiplr, Bool.not_true, Bool.false_eq_true, if_false]
  rcases hl : OutputIPLR_loop ext ops sw m sw.PlatformsToCompile ops.init w with ⟨o, w1⟩
  rw [hl] at hloop hfs
  obtain ⟨ho, hc⟩ := hloop
  simp only at ho hc
  subst ho
  exact ⟨rfl, hc, hfs.1⟩

/-- Witness for C1 (amended): platforms `[0, 4, 1, 0]`, the compiler rejects the
platform at index `2`. -/
theorem OutputIPLR_stops_at_first_invalid_witness :
    (OutputIPLR demoExternals demoStageData (demoSwitches true [0, 4, 1, 0] "out.iplr") [7]
        emptyWorld).1 = some false ∧
    (OutputIPLR demoExternals demoStageData (demoSwitches true [0, 4, 1, 0] "out.iplr") [7]
        emptyWorld).2.compiles =
      emptyWorld.compiles ++ (List.take (2 + 1) [0, 4, 1, 0]).map
        (invocationFor demoExternals (demoSwitches true [0, 4, 1, 0] "out.iplr") [7]) ∧
    (OutputIPLR demoExternals demoStageData (demoSwitches true [0, 4, 1, 0] "out.iplr") [7]
        emptyWorld).2.fsops = emptyWorld.fsops :=
  OutputIPLR_stops_at_first_invalid demoExternals demoStageData
    (demoSwitches true [0, 4, 1, 0] "out.iplr") [7] emptyWorld 2 1 rfl rfl
    (by
      intro p hp
      have h : p = 0 ∨ p = 4 := by simpa [demoSwitches] using hp
      rcases h with rfl | rfl
      · exact ⟨_, _, rfl, rfl, rfl⟩
      · exact ⟨_, _, rfl, rfl, rfl⟩)
    rfl

/-- Counterexample to C1 as stated: with platforms `[3, 1]` the compiler is valid
for index `0` and invalid for index `1`, yet `OutputIPLR` constructs the compiler
for platform `3` only: the valid compiler of platform `3` has a reflector
without stage data, and the loop returns false there. The claim asks for the
constructions `[3, 1]`. -/
theorem OutputIPLR_null_stage_data_counterexample :
    (compilerFor demoExternals (demoSwitches true [3, 1] "out.iplr") [7] 3).IsValid = true ∧
    ((compilerFor demoExternals (demoSwitches true [3, 1] "out.iplr") [7] 3).GetReflector.map
      (fun r => r.GetRuntimeStageShaderData)) = some none ∧
    (compilerFor demoExternals (demoSwitches true [3, 1] "out.iplr") [7] 1).IsValid = false ∧
    (OutputIPLR demoExternals demoStageData (demoSwitches true [3, 1] "out.iplr") [7]
        emptyWorld).1 = some false ∧
    (OutputIPLR demoExternals demoStageData (demoSwitches true [3, 1] "out.iplr") [7]
        emptyWorld).2.compiles.map (fun i => i.options.target_platform) = [3] ∧
    (OutputIPLR demoExternals demoStageData (demoSwitches true [3, 1] "out.iplr") [7]
        emptyWorld).2.compiles ≠
      emptyWorld.compiles ++ (List.take (1 + 1) [3, 1]).map
        (invocationFor demoExternals (demoSwitches true [3, 1] "out.iplr") [7]) := by
  refine ⟨rfl, rfl, rfl, rfl, rfl, ?_⟩
  decide

/-- C2: in packaged (iplr) mode, when some platform of the list has an invalid
compile, a null reflector or null stage data, or when the serialization of the
aggregator returns no mapping, `Main` returns false and no file is written: no
file-system primitive is called and the file store is as before the run. -/
theorem Main_iplr_failure_writes_nothing {σ : Type} (ext : Externals)
    (ops : RuntimeStageDataOps σ) (cl : CommandLine) (m : Mapping) (w : World)
    (hhelp : cl.HasOption_help = false)
    (hvalid : cl.switches.AreValid = true)
    (hbundle : cl.switches.shader_bundle = "")
    (hsrc : ext.CreateReadOnly (Utf8FromPath cl.switches.source_file_name) = some m)
    (hiplr : cl.switches.iplr = true)
    (hfail : (∃ p ∈ cl.switches.PlatformsToCompile, stepFails ext cl.switches m p) ∨
      (∀ stages w1, OutputIPLR_loop ext ops cl.switches m cl.switches.PlatformsToCompile
        ops.init w = (some stages, w1) → stageDataMapping ops cl.switches stages = none)) :
    (Main ext ops cl w).1 = some false ∧
    (Main ext ops cl w).2.fsops = w.fsops ∧
    (Main ext ops cl w).2.files = w.files := by
  have h := OutputIPLR_failure ext ops cl.switches m w hiplr hfail
  unfold Main
  simp only [hhelp, hvalid, hbundle, hsrc, hiplr, Bool.not_true, Bool.false_eq_true,
    if_false, if_true, ne_eq, not_true_eq_false]
  rcases ho : OutputIPLR ext ops cl.switches m w with ⟨b, w1⟩
  rw [ho] at h
  obtain ⟨hb, hf, hfiles⟩ := h
  simp only at hb hf hfiles
  subst hb
  exact ⟨rfl, hf, hfiles⟩

/-- Witness for C2: platforms `[0, 1]` (platform `1` does not compile, after
platform `0` succeeded), and platforms `[0, 9]` (both compile, the serialization
fails). -/
theorem Main_iplr_failure_writes_nothing_witness :
    ((Main demoExternals demoStageData ⟨false, demoSwitches true [0, 1] "out.iplr"⟩
        emptyWorld).1 = some false ∧
      (Main demoExternals demoStageData ⟨false, demoSwitches true [0, 1] "out.iplr"⟩
        emptyWorld).2.fsops = emptyWorld.fsops ∧
      (Main demoExternals demoStageData ⟨false, demoSwitches true [0, 1] "out.iplr"⟩
        emptyWorld).2.files = emptyWorld.files) ∧
    ((Main demoExternals demoStageData ⟨false, demoSwitches true [0, 9] "out.iplr"⟩
        emptyWorld).1 = some false ∧
      (Main demoExternals demoStageData ⟨false, demoSwitches true [0, 9] "out.iplr"⟩
        emptyWorld).2.fsops = emptyWorld.fsops ∧
      (Main demoExternals demoStageData ⟨false, demoSwitches true [0, 9] "out.iplr"⟩
        emptyWorld).2.files = emptyWorld.files) :=
  ⟨Main_iplr_failure_writes_nothing demoExternals demoStageData
      ⟨false, demoSwitches true [0, 1] "out.iplr"⟩ [7] emptyWorld rfl rfl rfl rfl rfl
      (Or.inl ⟨1, by simp [demoSwitches], Or.inl rfl⟩),
    Main_iplr_failure_writes_nothing demoExternals demoStageData
      ⟨false, demoSwitches true [0, 9] "out.iplr"⟩ [7] emptyWorld rfl rfl rfl rfl rfl
      (Or.inr (by
        intro stages w1 h
        have h1 : stages = [⟨0, "main", [0]⟩, ⟨9, "main", [9]⟩] := by
          have := congrArg Prod.fst h
          exact (Option.some.inj this).symm
        subst h1
        rfl))⟩


/-! ## Properties of fail-fast writing -/

theorem writeInOrder_append (ext : Externals) (base : Path) (xs ys : List Artifact) :
    ∀ w : World, writeInOrder ext base (xs ++ ys) w =
      if (writeInOrder ext base xs w).1 then
        writeInOrder ext base ys (writeInOrder ext base xs w).2
      else (false, (writeInOrder ext base xs w).2) := by
  induction xs with
  | nil => intro w; simp [writeInOrder]
  | cons a rest ih =>
    intro w
    simp only [List.cons_append, writeInOrder]
    by_cases h : (WriteAtomically ext w base a.path a.data).1 = true
    · simp [h, ih]
    · simp [h]

/-- The shape of every fail-fast run: some number `n` of artifacts is written in
order, then either the list is exhausted or the next write fails and ends the
run; the file store holds exactly the `n` artifacts written. -/
theorem writeInOrder_spec (ext : Externals) (base : Path) (plan : List Artifact) :
    ∀ w : World, ∃ n : Nat,
      (if (writeInOrder ext base plan w).1 then n = plan.length else n < plan.length) ∧
      (writeInOrder ext base plan w).2.fsops = w.fsops ++
        List.zipWith (Artifact.attempt base) plan
          (attemptResults n (writeInOrder ext base plan w).1) ∧
      (writeInOrder ext base plan w).2.files =
        storeArtifacts ext.creationMode w.files (plan.take n) ∧
      (writeInOrder ext base plan w).2.compiles = w.compiles := by
  induction plan with
  | nil => intro w; exact ⟨0, by simp [writeInOrder, attemptResults, storeArtifacts]⟩
  | cons a rest ih =>
    intro w
    by_cases h : ext.writeSucceeds w base a.path a.data = true
    · obtain ⟨n, h1, h2, h3, h4⟩ := ih (WriteAtomically ext w base a.path a.data).2
      refine ⟨n + 1, ?_, ?_, ?_, ?_⟩
      · simp only [writeInOrder, WriteAtomically, h, Bool.not_true, Bool.false_eq_true,
          if_false, List.length_cons] at h1 ⊢
        split
        · rename_i hb; rw [if_pos hb] at h1; simpa using h1
        · rename_i hb; rw [if_neg hb] at h1; simpa using h1
      · simp only [writeInOrder, WriteAtomically, h, Bool.not_true, Bool.false_eq_true,
          if_false] at h2 ⊢
        rw [h2]
        simp [attemptResults, List.replicate_succ, Artifact.attempt]
      · simp only [writeInOrder, WriteAtomically, h, Bool.not_true, Bool.false_eq_true,
          if_false, if_true] at h3 ⊢
        rw [h3]
        simp [storeArtifacts]
      · simp only [writeInOrder, WriteAtomically, h, Bool.not_true, Bool.false_eq_true,
          if_false] at h4 ⊢
        rw [h4]
    · have h' : ext.writeSucceeds w base a.path a.data = false := by simpa using h
      refine ⟨0, ?_⟩
      simp [writeInOrder, WriteAtomically, h', attemptResults, storeArtifacts,
        Artifact.attempt, World.err]

/-- A fail-fast run all of whose writes succeed returns true after writing every
artifact. -/
theorem writeInOrder_all_succeed (ext : Externals) (base : Path) (plan : List Artifact) :
    ∀ w : World, (∀ a ∈ plan, ∀ w1, ext.writeSucceeds w1 base a.path a.data = true) →
      (writeInOrder ext base plan w).1 = true ∧
      (writeInOrder ext base plan w).2.fsops =
        w.fsops ++ plan.map (fun a => Artifact.attempt base a true) := by
  induction plan with
  | nil => intro w _; simp [writeInOrder]
  | cons a rest ih =>
    intro w hall
    have h := hall a (by simp) w
    have hrest := ih (WriteAtomically ext w base a.path a.data).2
      (fun b hb w1 => hall b (by simp [hb]) w1)
    simp only [writeInOrder, WriteAtomically, h, Bool.not_true, Bool.false_eq_true,
      if_false] at hrest ⊢
    refine ⟨hrest.1, ?_⟩
    rw [hrest.2]
    simp [Artifact.attempt]

theorem OutputSLFile_eq (ext : Externals) (c : Compiler) (sw : Switches) (w : World) :
    OutputSLFile ext c sw w = writeInOrder ext sw.working_directory [slArtifact ext sw c] w := by
  simp only [OutputSLFile, writeInOrder, slArtifact, resolved, Utf8FromPath]

theorem OutputDepfile_eq (ext : Externals) (c : Compiler) (sw : Switches) (w : World) :
    OutputDepfile ext c sw w =
      writeInOrder ext sw.working_directory (depfileArtifacts ext sw c) w := by
  unfold OutputDepfile depfileArtifacts
  by_cases h : sw.depfile_path = ""
  · simp [h, writeInOrder]
  · simp only [ne_eq, h, not_false_eq_true, if_true, writeInOrder, resolved, Utf8FromPath]

theorem OutputReflectionData_cc_eq (ext : Externals) (c : Compiler) (sw : Switches)
    (r : Reflector) (hr : c.GetReflector = some r) (w : World) :
    OutputReflectionData_cc ext c sw w =
      (some (writeInOrder ext sw.working_directory (reflectionCCArtifacts ext sw r) w).1,
        (writeInOrder ext sw.working_directory (reflectionCCArtifacts ext sw r) w).2) := by
  unfold OutputReflectionData_cc reflectionCCArtifacts
  by_cases h : sw.reflection_cc_name = ""
  · simp [h, writeInOrder]
  · simp only [ne_eq, h, not_false_eq_true, if_true, writeInOrder, resolved, Utf8FromPath, hr]
    split <;> rfl

theorem OutputReflectionData_header_eq (ext : Externals) (c : Compiler) (sw : Switches)
    (r : Reflector) (hr : c.GetReflector = some r) (w : World) :
    OutputReflectionData_header ext c sw w =
      (some (writeInOrder ext sw.working_directory
          (reflectionHeaderArtifacts ext sw r ++ reflectionCCArtifacts ext sw r) w).1,
        (writeInOrder ext sw.working_directory
          (reflectionHeaderArtifacts ext sw r ++ reflectionCCArtifacts ext sw r) w).2) := by
  unfold OutputReflectionData_header reflectionHeaderArtifacts
  by_cases h : sw.reflection_header_name = ""
  · simp [h, OutputReflectionData_cc_eq ext c sw r hr]
  · simp only [ne_eq, h, not_false_eq_true, if_true, hr, List.singleton_append, writeInOrder,
      resolved, Utf8FromPath]
    split
    · rfl
    · exact OutputReflectionData_cc_eq ext c sw r hr _

theorem OutputReflectionData_eq (ext : Externals) (c : Compiler) (sw : Switches)
    (o : SourceOptions) (r : Reflector) (hr : c.GetReflector = some r) (w : World) :
    OutputReflectionData ext c sw o w =
      (some (writeInOrder ext sw.working_directory (reflectionArtifacts ext sw r) w).1,
        (writeInOrder ext sw.working_directory (reflectionArtifacts ext sw r) w).2) := by
  unfold OutputReflectionData reflectionArtifacts reflectionJsonArtifacts
  by_cases h : sw.reflection_json_name = ""
  · simp [h, OutputReflectionData_header_eq ext c sw r hr]
  · simp only [ne_eq, h, not_false_eq_true, if_true, hr, List.singleton_append, writeInOrder,
      resolved, Utf8FromPath]
    split
    · rfl
    · exact OutputReflectionData_header_eq ext c sw r hr _

/-- With a reflector at hand, the outputs of `Main` are the fail-fast writing of
`outputArtifacts`. -/
theorem Main_outputs_eq (ext : Externals) (c : Compiler) (sw : Switches)
    (o : SourceOptions) (r : Reflector) (hr : c.GetReflector = some r) (w : World) :
    Main_outputs ext c sw o w =
      (some (writeInOrder ext sw.working_directory (outputArtifacts ext sw c r) w).1,
        (writeInOrder ext sw.working_directory (outputArtifacts ext sw c r) w).2) := by
  unfold Main_outputs outputArtifacts
  simp only [writeInOrder, spirvArtifact, resolved, Utf8FromPath]
  split
  · rfl
  · rw [writeInOrder_append, writeInOrder_append]
    cases hi : sw.iplr
    · simp only [Bool.not_false, if_true, Bool.false_eq_true, if_false, OutputSLFile_eq,
        OutputReflectionData_eq ext c sw o r hr, OutputDepfile_eq]
      cases h1 : (writeInOrder ext sw.working_directory [slArtifact ext sw c]
        (WriteAtomically ext w sw.working_directory
          (ext.absolute (ext.join ext.current_path sw.spirv_file_name))
          c.GetSPIRVAssembly).2).1
      · simp [resolved]
      · simp only [Bool.not_true, Bool.false_eq_true, if_false, if_true]
        cases h2 : (writeInOrder ext sw.working_directory (reflectionArtifacts ext sw r)
          (writeInOrder ext sw.working_directory [slArtifact ext sw c]
            (WriteAtomically ext w sw.working_directory
              (ext.absolute (ext.join ext.current_path sw.spirv_file_name))
              c.GetSPIRVAssembly).2).2).1
        · simp
        · simp only [if_true]
          split <;> simp_all
    · simp only [Bool.not_true, Bool.false_eq_true, if_false, if_true, writeInOrder,
        OutputReflectionData_eq ext c sw o r hr, OutputDepfile_eq]
      cases h2 : (writeInOrder ext sw.working_directory (reflectionArtifacts ext sw r)
        (WriteAtomically ext w sw.working_directory
          (ext.absolute (ext.join ext.current_path sw.spirv_file_name))
          c.GetSPIRVAssembly).2).1
      · simp
      · simp only [if_true]
        split <;> simp_all


/-! ## Properties of `OutputIPLR` and `Main` -/

theorem WriteAtomically_compiles (ext : Externals) (w : World) (base name : Path)
    (d : Mapping) : (WriteAtomically ext w base name d).2.compiles = w.compiles := rfl

theorem SetPermissiveAccess_compiles (ext : Externals) (w : World) (p : Path) :
    (SetPermissiveAccess ext w p).2.compiles = w.compiles := rfl

/-- A loop that runs to its end has constructed one compiler per platform, in the
order of the list. -/
theorem OutputIPLR_loop_compiles {σ : Type} (ext : Externals) (ops : RuntimeStageDataOps σ)
    (sw : Switches) (m : Mapping) (P : List TargetPlatform) :
    ∀ (stages : σ) (w : World) (s : σ),
      (OutputIPLR_loop ext ops sw m P stages w).1 = some s →
      (OutputIPLR_loop ext ops sw m P stages w).2.compiles =
        w.compiles ++ P.map (invocationFor ext sw m) := by
  induction P with
  | nil => intro stages w s _; simp [OutputIPLR_loop]
  | cons p rest ih =>
    intro stages w s
    simp only [OutputIPLR_loop]
    split
    · intro h; cases h
    · split
      · intro h; cases h
      · split
        · intro h; cases h
        · intro h
          rw [ih _ _ s h]
          simp [World.invoke_compiles]

/-- The three ways `OutputIPLR` can end, by its file-system operations: none at
all; a failed bundle write; a successful bundle write followed by the permission
change, whose result is the result of `OutputIPLR`. -/
theorem OutputIPLR_cases {σ : Type} (ext : Externals) (ops : RuntimeStageDataOps σ)
    (sw : Switches) (m : Mapping) (w : World) (hiplr : sw.iplr = true) :
    ((OutputIPLR ext ops sw m w).1 = some false ∧
      (OutputIPLR ext ops sw m w).2.fsops = w.fsops ∧
      (OutputIPLR ext ops sw m w).2.files = w.files) ∨
    (∃ d, (OutputIPLR ext ops sw m w).1 = some false ∧
      (OutputIPLR ext ops sw m w).2.fsops =
        w.fsops ++ [FsOp.write sw.working_directory sw.sl_file_name d false] ∧
      (OutputIPLR ext ops sw m w).2.files = w.files) ∨
    (∃ d ok, (OutputIPLR ext ops sw m w).1 = some ok ∧
      (OutputIPLR ext ops sw m w).2.fsops =
        w.fsops ++ [FsOp.write sw.working_directory sw.sl_file_name d true,
          FsOp.permissions sw.sl_file_name ok] ∧
      (OutputIPLR ext ops sw m w).2.files sw.sl_file_name =
        some ⟨d, if ok then permissiveMode else ext.creationMode⟩) := by
  have hfs := OutputIPLR_loop_fs ext ops sw m sw.PlatformsToCompile ops.init w
  unfold OutputIPLR
  simp only [hiplr, Bool.not_true, Bool.false_eq_true, if_false]
  rcases hloop : OutputIPLR_loop ext ops sw m sw.PlatformsToCompile ops.init w with ⟨o, w1⟩
  rw [hloop] at hfs
  simp only at hfs
  cases o with
  | none => exact Or.inl ⟨rfl, hfs.1, hfs.2⟩
  | some stages =>
    simp only
    cases hmap : stageDataMapping ops sw stages with
    | none => exact Or.inl ⟨rfl, hfs.1, hfs.2⟩
    | some d =>
      simp only
      cases hw : ext.writeSucceeds w1 sw.working_directory sw.sl_file_name d with
      | false =>
        refine Or.inr (Or.inl ⟨d, ?_⟩)
        simp [WriteAtomically, Utf8FromPath, hw, World.err, hfs.1, hfs.2]
      | true =>
        refine Or.inr (Or.inr ⟨d, ext.permissionsSucceed
          (WriteAtomically ext w1 sw.working_directory sw.sl_file_name d).2
          sw.sl_file_name, ?_⟩)
        cases hp : ext.permissionsSucceed
          (WriteAtomically ext w1 sw.working_directory sw.sl_file_name d).2 sw.sl_file_name
        · simp [WriteAtomically, SetPermissiveAccess, Utf8FromPath, hw, hfs.1] at hp ⊢
          simp [hp, storeFile]
        · simp [WriteAtomically, SetPermissiveAccess, Utf8FromPath, hw, hfs.1] at hp ⊢
          simp [hp, storeFile]

/-- When `OutputIPLR` returns true it has constructed one compiler per platform. -/
theorem OutputIPLR_true_compiles {σ : Type} (ext : Externals) (ops : RuntimeStageDataOps σ)
    (sw : Switches) (m : Mapping) (w : World)
    (h : (OutputIPLR ext ops sw m w).1 = some true) :
    (OutputIPLR ext ops sw m w).2.compiles =
      w.compiles ++ sw.PlatformsToCompile.map (invocationFor ext sw m) := by
  have hc := OutputIPLR_loop_compiles ext ops sw m sw.PlatformsToCompile ops.init w
  unfold OutputIPLR at h ⊢
  cases hi : sw.iplr
  · simp [hi] at h
  · simp only [hi, Bool.not_true, Bool.false_eq_true, if_false] at h ⊢
    rcases hloop : OutputIPLR_loop ext ops sw m sw.PlatformsToCompile ops.init w with ⟨o, w1⟩
    rw [hloop] at h hc
    cases o with
    | none => simp at h
    | some stages =>
      have hc1 := hc stages rfl
      simp only at h hc1 ⊢
      cases hmap : stageDataMapping ops sw stages with
      | none => simp [hmap] at h
      | some d =>
        simp only [hmap] at h ⊢
        split
        · rename_i hx; simp [hx] at h
        · split
          · rename_i hx hy; simp [hx, hy] at h
          · rw [SetPermissiveAccess_compiles, WriteAtomically_compiles, hc1]

theorem OutputSLFile_compiles (ext : Externals) (c : Compiler) (sw : Switches) (w : World) :
    (OutputSLFile ext c sw w).2.compiles = w.compiles := by
  simp only [OutputSLFile]
  split <;> rfl

theorem OutputDepfile_compiles (ext : Externals) (c : Compiler) (sw : Switches) (w : World) :
    (OutputDepfile ext c sw w).2.compiles = w.compiles := by
  simp only [OutputDepfile]
  split
  · split <;> rfl
  · rfl

theorem OutputReflectionData_cc_compiles (ext : Externals) (c : Compiler) (sw : Switches)
    (w : World) : (OutputReflectionData_cc ext c sw w).2.compiles = w.compiles := by
  simp only [OutputReflectionData_cc]
  split
  · split
    · rfl
    · split <;> rfl
  · rfl

theorem OutputReflectionData_header_compiles (ext : Externals) (c : Compiler)
    (sw : Switches) (w : World) :
    (OutputReflectionData_header ext c sw w).2.compiles = w.compiles := by
  simp only [OutputReflectionData_header]
  split
  · split
    · rfl
    · split
      · rfl
      · rw [OutputReflectionData_cc_compiles]; rfl
  · exact OutputReflectionData_cc_compiles ext c sw w

theorem OutputReflectionData_compiles (ext : Externals) (c : Compiler) (sw : Switches)
    (o : SourceOptions) (w : World) :
    (OutputReflectionData ext c sw o w).2.compiles = w.compiles := by
  simp only [OutputReflectionData]
  split
  · split
    · rfl
    · split
      · rfl
      · rw [OutputReflectionData_header_compiles]; rfl
  · exact OutputReflectionData_header_compiles ext c sw w

/-- The outputs of `Main` construct no compiler. -/
theorem Main_outputs_compiles (ext : Externals) (c : Compiler) (sw : Switches)
    (o : SourceOptions) (w : World) :
    (Main_outputs ext c sw o w).2.compiles = w.compiles := by
  simp only [Main_outputs]
  generalize hW : WriteAtomically ext w sw.working_directory
    (Utf8FromPath (ext.absolute (ext.join ext.current_path sw.spirv_file_name)))
    c.GetSPIRVAssembly = r
  have hr : r.2.compiles = w.compiles := by rw [← hW]; rfl
  generalize hS : (if (!sw.iplr) = true then OutputSLFile ext c sw r.2 else (true, r.2)) = s
  have hs : s.2.compiles = w.compiles := by
    rw [← hS]
    split
    · rw [OutputSLFile_compiles, hr]
    · exact hr
  have hrd := OutputReflectionData_compiles ext c sw o s.2
  generalize OutputReflectionData ext c sw o s.2 = rd at hrd
  rcases rd with ⟨ob, w3⟩
  have hd := OutputDepfile_compiles ext c sw w3
  simp only at hrd
  split
  · exact hr
  · split
    · exact hs
    · cases ob with
      | none => simp only; rw [hrd, hs]
      | some b =>
        cases b
        · simp only; rw [hrd, hs]
        · simp only
          split
          · rw [hd, hrd, hs]
          · rw [hd, hrd, hs]

/-- In direct mode `Main` goes straight to its single compile. -/
theorem Main_direct_eq {σ : Type} (ext : Externals) (ops : RuntimeStageDataOps σ)
    (cl : CommandLine) (m : Mapping) (w : World)
    (hhelp : cl.HasOption_help = false) (hvalid : cl.switches.AreValid = true)
    (hbundle : cl.switches.shader_bundle = "")
    (hsrc : ext.CreateReadOnly (Utf8FromPath cl.switches.source_file_name) = some m)
    (hiplr : cl.switches.iplr = false) :
    Main ext ops cl w = Main_single ext cl.switches m w := by
  unfold Main
  simp [hhelp, hvalid, hbundle, hsrc, hiplr]

/-- In packaged mode, after `OutputIPLR` returned true, `Main` goes on to its
single compile. -/
theorem Main_iplr_eq {σ : Type} (ext : Externals) (ops : RuntimeStageDataOps σ)
    (cl : CommandLine) (m : Mapping) (w : World)
    (hhelp : cl.HasOption_help = false) (hvalid : cl.switches.AreValid = true)
    (hbundle : cl.switches.shader_bundle = "")
    (hsrc : ext.CreateReadOnly (Utf8FromPath cl.switches.source_file_name) = some m)
    (hiplr : cl.switches.iplr = true)
    (hout : (OutputIPLR ext ops cl.switches m w).1 = some true) :
    Main ext ops cl w =
      Main_single ext cl.switches m (OutputIPLR ext ops cl.switches m w).2 := by
  unfold Main
  simp only [hhelp, hvalid, hbundle, hsrc, hiplr, Bool.not_true, Bool.false_eq_true,
    if_false, if_true, ne_eq, not_true_eq_false]
  rcases ho : OutputIPLR ext ops cl.switches m w with ⟨b, w1⟩
  rw [ho] at hout
  simp only at hout
  subst hout
  rfl

/-- The single compile of `Main` followed by its outputs, when the compiler is valid
and has a reflector. -/
theorem Main_single_eq (ext : Externals) (sw : Switches) (m : Mapping) (w : World)
    (p : TargetPlatform) (rest : List TargetPlatform) (r : Reflector)
    (hP : sw.PlatformsToCompile = p :: rest)
    (hc : (compilerFor ext sw m p).IsValid = true)
    (hr : (compilerFor ext sw m p).GetReflector = some r) :
    Main_single ext sw m w =
      (some (writeInOrder ext sw.working_directory
          (outputArtifacts ext sw (compilerFor ext sw m p) r)
          (w.invoke (invocationFor ext sw m p))).1,
        (writeInOrder ext sw.working_directory
          (outputArtifacts ext sw (compilerFor ext sw m p) r)
          (w.invoke (invocationFor ext sw m p))).2) := by
  unfold Main_single
  simp only [hP, hc, Bool.not_true, Bool.false_eq_true, if_false]
  exact Main_outputs_eq ext _ sw _ r hr _

/-- The single compile of `Main` constructs exactly one compiler, for the first
platform. -/
theorem Main_single_compiles (ext : Externals) (sw : Switches) (m : Mapping) (w : World)
    (p : TargetPlatform) (rest : List TargetPlatform)
    (hP : sw.PlatformsToCompile = p :: rest) :
    (Main_single ext sw m w).2.compiles = w.compiles ++ [invocationFor ext sw m p] := by
  unfold Main_single
  simp only [hP]
  split
  · rfl
  · rw [Main_outputs_compiles]
    rfl


/-- When `OutputIPLR` returns true, no platform of the list failed a check. -/
theorem OutputIPLR_true_no_failure {σ : Type} (ext : Externals) (ops : RuntimeStageDataOps σ)
    (sw : Switches) (m : Mapping) (w : World) (hiplr : sw.iplr = true)
    (h : (OutputIPLR ext ops sw m w).1 = some true) :
    ∀ p ∈ sw.PlatformsToCompile, ¬ stepFails ext sw m p := by
  intro p hp hf
  have := (OutputIPLR_failure ext ops sw m w hiplr (Or.inl ⟨p, hp, hf⟩)).1
  rw [this] at h
  cases h

/-- C3 (amended): when packaged output is selected and `OutputIPLR` returns true,
`Main` does not stop after the multi-platform loop: it constructs one more
compiler, for the first platform, and then attempts, fail-fast and in this order,
the SPIR-V write, the enabled reflection writes and the depfile write; only the
native-source write is left out. The bundle write and its permission change are
the first two file-system operations of the run. -/
theorem Main_iplr_continues_after_bundle {σ : Type} (ext : Externals)
    (ops : RuntimeStageDataOps σ) (cl : CommandLine) (m : Mapping) (w : World)
    (p : TargetPlatform) (rest : List TargetPlatform)
    (hhelp : cl.HasOption_help = false) (hvalid : cl.switches.AreValid = true)
    (hbundle : cl.switches.shader_bundle = "")
    (hsrc : ext.CreateReadOnly (Utf8FromPath cl.switches.source_file_name) = some m)
    (hiplr : cl.switches.iplr = true)
    (hP : cl.switches.PlatformsToCompile = p :: rest)
    (hout : (OutputIPLR ext ops cl.switches m w).1 = some true) :
    ∃ (r : Reflector) (d : Mapping) (b : Bool) (n : Nat),
      (compilerFor ext cl.switches m p).GetReflector = some r ∧
      (Main ext ops cl w).1 = some b ∧
      (Main ext ops cl w).2.compiles =
        w.compiles ++ (p :: rest).map (invocationFor ext cl.switches m) ++
          [invocationFor ext cl.switches m p] ∧
      (if b then
          n = (spirvArtifact ext cl.switches (compilerFor ext cl.switches m p) ::
            (reflectionArtifacts ext cl.switches r ++
              depfileArtifacts ext cl.switches (compilerFor ext cl.switches m p))).length
        else
          n < (spirvArtifact ext cl.switches (compilerFor ext cl.switches m p) ::
            (reflectionArtifacts ext cl.switches r ++
              depfileArtifacts ext cl.switches (compilerFor ext cl.switches m p))).length) ∧
      (Main ext ops cl w).2.fsops =
        w.fsops ++
          [FsOp.write cl.switches.working_directory cl.switches.sl_file_name d true,
            FsOp.permissions cl.switches.sl_file_name true] ++
          List.zipWith (Artifact.attempt cl.switches.working_directory)
            (spirvArtifact ext cl.switches (compilerFor ext cl.switches m p) ::
              (reflectionArtifacts ext cl.switches r ++
                depfileArtifacts ext cl.switches (compilerFor ext cl.switches m p)))
            (attemptResults n b) := by
  have hnf := OutputIPLR_true_no_failure ext ops cl.switches m w hiplr hout p
    (by rw [hP]; simp)
  have hc : (compilerFor ext cl.switches m p).IsValid = true := by
    cases hv : (compilerFor ext cl.switches m p).IsValid
    · exact absurd (Or.inl hv) hnf
    · rfl
  obtain ⟨r, hr⟩ : ∃ r, (compilerFor ext cl.switches m p).GetReflector = some r := by
    cases hg : (compilerFor ext cl.switches m p).GetReflector with
    | none => exact absurd (Or.inr (Or.inl hg)) hnf
    | some r => exact ⟨r, rfl⟩
  have hcomp := OutputIPLR_true_compiles ext ops cl.switches m w hout
  have hmain := Main_iplr_eq ext ops cl m w hhelp hvalid hbundle hsrc hiplr hout
  have hsingle := Main_single_eq ext cl.switches m (OutputIPLR ext ops cl.switches m w).2
    p rest r hP hc hr
  have hplan : outputArtifacts ext cl.switches (compilerFor ext cl.switches m p) r =
      spirvArtifact ext cl.switches (compilerFor ext cl.switches m p) ::
        (reflectionArtifacts ext cl.switches r ++
          depfileArtifacts ext cl.switches (compilerFor ext cl.switches m p)) := by
    simp [outputArtifacts, hiplr]
  rw [hplan] at hsingle
  obtain ⟨n, h1, h2, _, h4⟩ := writeInOrder_spec ext cl.switches.working_directory
    (spirvArtifact ext cl.switches (compilerFor ext cl.switches m p) ::
      (reflectionArtifacts ext cl.switches r ++
        depfileArtifacts ext cl.switches (compilerFor ext cl.switches m p)))
    ((OutputIPLR ext ops cl.switches m w).2.invoke (invocationFor ext cl.switches m p))
  rcases OutputIPLR_cases ext ops cl.switches m w hiplr with hA | ⟨d, hA, _⟩ | ⟨d, ok, hA, hB, _⟩
  · rw [hA.1] at hout; cases hout
  · rw [hA] at hout; cases hout
  · rw [hA] at hout
    have hok : ok = true := by cases hout; rfl
    subst hok
    refine ⟨r, d, _, n, hr, ?_, ?_, h1, ?_⟩
    · rw [hmain, hsingle]
    · rw [hmain, hsingle]
      simp only
      rw [h4, World.invoke_compiles, hcomp, hP]
    · rw [hmain, hsingle]
      simp only
      rw [h2, World.invoke_fsops, hB]

/-- Witness for C3 (amended): packaged mode on platforms `[0, 4]`. -/
theorem Main_iplr_continues_after_bundle_witness :
    ∃ (r : Reflector) (d : Mapping) (b : Bool) (n : Nat),
      (compilerFor demoExternals (demoSwitches true [0, 4] "out.iplr") [7] 0).GetReflector =
        some r ∧
      (Main demoExternals demoStageData ⟨false, demoSwitches true [0, 4] "out.iplr"⟩
        emptyWorld).1 = some b ∧
      (Main demoExternals demoStageData ⟨false, demoSwitches true [0, 4] "out.iplr"⟩
        emptyWorld).2.compiles =
        emptyWorld.compiles ++
          (0 :: [4]).map (invocationFor demoExternals (demoSwitches true [0, 4] "out.iplr") [7])
          ++ [invocationFor demoExternals (demoSwitches true [0, 4] "out.iplr") [7] 0] ∧
      (if b then
          n = (spirvArtifact demoExternals (demoSwitches true [0, 4] "out.iplr")
              (compilerFor demoExternals (demoSwitches true [0, 4] "out.iplr") [7] 0) ::
            (reflectionArtifacts demoExternals (demoSwitches true [0, 4] "out.iplr") r ++
              depfileArtifacts demoExternals (demoSwitches true [0, 4] "out.iplr")
                (compilerFor demoExternals (demoSwitches true [0, 4] "out.iplr") [7] 0))).length
        else
          n < (spirvArtifact demoExternals (demoSwitches true [0, 4] "out.iplr")
              (compilerFor demoExternals (demoSwitches true [0, 4] "out.iplr") [7] 0) ::
            (reflectionArtifacts demoExternals (demoSwitches true [0, 4] "out.iplr") r ++
              depfileArtifacts demoExternals (demoSwitches true [0, 4] "out.iplr")
                (compilerFor demoExternals (demoSwitches true [0, 4] "out.iplr") [7] 0))).length) ∧
      (Main demoExternals demoStageData ⟨false, demoSwitches true [0, 4] "out.iplr"⟩
        emptyWorld).2.fsops =
        emptyWorld.fsops ++
          [FsOp.write "/cwd" "out.iplr" d true, FsOp.permissions "out.iplr" true] ++
          List.zipWith (Artifact.attempt "/cwd")
            (spirvArtifact demoExternals (demoSwitches true [0, 4] "out.iplr")
                (compilerFor demoExternals (demoSwitches true [0, 4] "out.iplr") [7] 0) ::
              (reflectionArtifacts demoExternals (demoSwitches true [0, 4] "out.iplr") r ++
                depfileArtifacts demoExternals (demoSwitches true [0, 4] "out.iplr")
                  (compilerFor demoExternals (demoSwitches true [0, 4] "out.iplr") [7] 0)))
            (attemptResults n b) :=
  Main_iplr_continues_after_bundle demoExternals demoStageData
    ⟨false, demoSwitches true [0, 4] "out.iplr"⟩ [7] emptyWorld 0 [4]
    rfl rfl rfl rfl rfl rfl rfl

/-- Counterexample to C3 as stated: in packaged mode on platforms `[0, 4]` the run
succeeds, constructs a third compiler (for platform `0`) after the loop, and
after the bundle writes the SPIR-V file, the three reflection files and the
depfile. -/
theorem Main_iplr_counterexample :
    (demoSwitches true [0, 4] "out.iplr").iplr = true ∧
    (Main demoExternals demoStageData ⟨false, demoSwitches true [0, 4] "out.iplr"⟩
      emptyWorld).1 = some true ∧
    (Main demoExternals demoStageData ⟨false, demoSwitches true [0, 4] "out.iplr"⟩
      emptyWorld).2.compiles.map (fun i => i.options.target_platform) = [0, 4, 0] ∧
    (Main demoExternals demoStageData ⟨false, demoSwitches true [0, 4] "out.iplr"⟩
      emptyWorld).2.fsops =
      [FsOp.write "/cwd" "out.iplr" [0, 0, 4] true,
        FsOp.permissions "out.iplr" true,
        FsOp.write "/cwd" "/cwd/out.spirv" [10] true,
        FsOp.write "/cwd" "/cwd/out.json" [21] true,
        FsOp.write "/cwd" "/cwd/out.h" [22] true,
        FsOp.write "/cwd" "/cwd/out.cc" [23] true,
        FsOp.write "/cwd" "/cwd/out.d" [12] true] := by
  refine ⟨rfl, rfl, rfl, rfl⟩


/-- C4: in direct mode (no help, valid switches, no shader-bundle spec, readable
source, `iplr` false, non-empty platform list) `Main` constructs the compiler
exactly once, with the first entry of `PlatformsToCompile()` as target platform,
whatever follows it in the list; and when that compiler is invalid `Main`
returns false without calling a file-system primitive. -/
theorem Main_direct_compiles_first_platform_once {σ : Type} (ext : Externals)
    (ops : RuntimeStageDataOps σ) (cl : CommandLine) (m : Mapping) (w : World)
    (p : TargetPlatform) (rest : List TargetPlatform)
    (hhelp : cl.HasOption_help = false) (hvalid : cl.switches.AreValid = true)
    (hbundle : cl.switches.shader_bundle = "")
    (hsrc : ext.CreateReadOnly (Utf8FromPath cl.switches.source_file_name) = some m)
    (hiplr : cl.switches.iplr = false)
    (hP : cl.switches.PlatformsToCompile = p :: rest) :
    (Main ext ops cl w).2.compiles = w.compiles ++ [invocationFor ext cl.switches m p] ∧
    (invocationFor ext cl.switches m p).options.target_platform = p ∧
    (invocationFor ext cl.switches m p).source = m ∧
    ((compilerFor ext cl.switches m p).IsValid = false →
      (Main ext ops cl w).1 = some false ∧
      (Main ext ops cl w).2.fsops = w.fsops ∧
      (Main ext ops cl w).2.files = w.files) := by
  rw [Main_direct_eq ext ops cl m w hhelp hvalid hbundle hsrc hiplr]
  refine ⟨Main_single_compiles ext cl.switches m w p rest hP, rfl, rfl, ?_⟩
  intro hbad
  unfold Main_single
  simp only [hP, hbad, Bool.not_false, if_true]
  exact ⟨trivial, rfl, rfl⟩

/-- Witness for C4: direct mode on platforms `[1, 0, 4]`, whose first entry does
not compile. -/
theorem Main_direct_compiles_first_platform_once_witness :
    (Main demoExternals demoStageData ⟨false, demoSwitches false [1, 0, 4] "out.sl"⟩
      emptyWorld).2.compiles =
      emptyWorld.compiles ++
        [invocationFor demoExternals (demoSwitches false [1, 0, 4] "out.sl") [7] 1] ∧
    (invocationFor demoExternals (demoSwitches false [1, 0, 4] "out.sl") [7]
      1).options.target_platform = 1 ∧
    (invocationFor demoExternals (demoSwitches false [1, 0, 4] "out.sl") [7] 1).source = [7] ∧
    ((compilerFor demoExternals (demoSwitches false [1, 0, 4] "out.sl") [7] 1).IsValid = false →
      (Main demoExternals demoStageData ⟨false, demoSwitches false [1, 0, 4] "out.sl"⟩
        emptyWorld).1 = some false ∧
      (Main demoExternals demoStageData ⟨false, demoSwitches false [1, 0, 4] "out.sl"⟩
        emptyWorld).2.fsops = emptyWorld.fsops ∧
      (Main demoExternals demoStageData ⟨false, demoSwitches false [1, 0, 4] "out.sl"⟩
        emptyWorld).2.files = emptyWorld.files) :=
  Main_direct_compiles_first_platform_once demoExternals demoStageData
    ⟨false, demoSwitches false [1, 0, 4] "out.sl"⟩ [7] emptyWorld 1 [0, 4]
    rfl rfl rfl rfl rfl rfl

/-- C5: in direct mode after a valid compile, `Main` attempts the writes in the
fixed order raw byte code, native source, reflection JSON, reflection header,
reflection source, depfile (the optional ones only when enabled). Some number
`n` of them succeed; then either all are done and `Main` returns true, or the
next write fails, `Main` returns false and nothing more is attempted. The
file store at the end is the initial one with exactly the `n` successful
artifacts written: the files of earlier steps stay as written. Hence `Main`
returns true exactly when every attempted write succeeds. -/
theorem Main_direct_writes_fail_fast {σ : Type} (ext : Externals)
    (ops : RuntimeStageDataOps σ) (cl : CommandLine) (m : Mapping) (w : World)
    (p : TargetPlatform) (rest : List TargetPlatform) (r : Reflector)
    (hhelp : cl.HasOption_help = false) (hvalid : cl.switches.AreValid = true)
    (hbundle : cl.switches.shader_bundle = "")
    (hsrc : ext.CreateReadOnly (Utf8FromPath cl.switches.source_file_name) = some m)
    (hiplr : cl.switches.iplr = false)
    (hP : cl.switches.PlatformsToCompile = p :: rest)
    (hc : (compilerFor ext cl.switches m p).IsValid = true)
    (hr : (compilerFor ext cl.switches m p).GetReflector = some r) :
    ∃ (b : Bool) (n : Nat),
      (Main ext ops cl w).1 = some b ∧
      (if b then
          n = (spirvArtifact ext cl.switches (compilerFor ext cl.switches m p) ::
            slArtifact ext cl.switches (compilerFor ext cl.switches m p) ::
            (reflectionArtifacts ext cl.switches r ++
              depfileArtifacts ext cl.switches (compilerFor ext cl.switches m p))).length
        else
          n < (spirvArtifact ext cl.switches (compilerFor ext cl.switches m p) ::
            slArtifact ext cl.switches (compilerFor ext cl.switches m p) ::
            (reflectionArtifacts ext cl.switches r ++
              depfileArtifacts ext cl.switches (compilerFor ext cl.switches m p))).length) ∧
      (Main ext ops cl w).2.fsops =
        w.fsops ++ List.zipWith (Artifact.attempt cl.switches.working_directory)
          (spirvArtifact ext cl.switches (compilerFor ext cl.switches m p) ::
            slArtifact ext cl.switches (compilerFor ext cl.switches m p) ::
            (reflectionArtifacts ext cl.switches r ++
              depfileArtifacts ext cl.switches (compilerFor ext cl.switches m p)))
          (attemptResults n b) ∧
      (Main ext ops cl w).2.files =
        storeArtifacts ext.creationMode w.files
          ((spirvArtifact ext cl.switches (compilerFor ext cl.switches m p) ::
            slArtifact ext cl.switches (compilerFor ext cl.switches m p) ::
            (reflectionArtifacts ext cl.switches r ++
              depfileArtifacts ext cl.switches (compilerFor ext cl.switches m p))).take n) ∧
      (b = true ↔ ∀ ok ∈ attemptResults n b, ok = true) := by
  have hmain := Main_direct_eq ext ops cl m w hhelp hvalid hbundle hsrc hiplr
  have hsingle := Main_single_eq ext cl.switches m w p rest r hP hc hr
  have hplan : outputArtifacts ext cl.switches (compilerFor ext cl.switches m p) r =
      spirvArtifact ext cl.switches (compilerFor ext cl.switches m p) ::
        slArtifact ext cl.switches (compilerFor ext cl.switches m p) ::
        (reflectionArtifacts ext cl.switches r ++
          depfileArtifacts ext cl.switches (compilerFor ext cl.switches m p)) := by
    simp [outputArtifacts, hiplr]
  rw [hplan] at hsingle
  obtain ⟨n, h1, h2, h3, _⟩ := writeInOrder_spec ext cl.switches.working_directory
    (spirvArtifact ext cl.switches (compilerFor ext cl.switches m p) ::
      slArtifact ext cl.switches (compilerFor ext cl.switches m p) ::
      (reflectionArtifacts ext cl.switches r ++
        depfileArtifacts ext cl.switches (compilerFor ext cl.switches m p)))
    (w.invoke (invocationFor ext cl.switches m p))
  refine ⟨_, n, ?_, h1, ?_, ?_, ?_⟩
  · rw [hmain, hsingle]
  · rw [hmain, hsingle]
    simp only
    rw [h2, World.invoke_fsops]
  · rw [hmain, hsingle]
    simp only
    rw [h3, World.invoke_files]
  · cases (writeInOrder ext cl.switches.working_directory
      (spirvArtifact ext cl.switches (compilerFor ext cl.switches m p) ::
        slArtifact ext cl.switches (compilerFor ext cl.switches m p) ::
        (reflectionArtifacts ext cl.switches r ++
          depfileArtifacts ext cl.switches (compilerFor ext cl.switches m p)))
      (w.invoke (invocationFor ext cl.switches m p))).1 <;> simp [attemptResults]

/-- Witness for C5: direct mode on platforms `[0, 4]` with all outputs enabled. -/
theorem Main_direct_writes_fail_fast_witness :
    ∃ (b : Bool) (n : Nat),
      (Main demoExternals demoStageData ⟨false, demoSwitches false [0, 4] "/cwd/full"⟩
        emptyWorld).1 = some b ∧
      (Main demoExternals demoStageData ⟨false, demoSwitches false [0, 4] "/cwd/full"⟩
        emptyWorld).2.fsops =
        emptyWorld.fsops ++ List.zipWith (Artifact.attempt "/cwd")
          (spirvArtifact demoExternals (demoSwitches false [0, 4] "/cwd/full")
              (compilerFor demoExternals (demoSwitches false [0, 4] "/cwd/full") [7] 0) ::
            slArtifact demoExternals (demoSwitches false [0, 4] "/cwd/full")
              (compilerFor demoExternals (demoSwitches false [0, 4] "/cwd/full") [7] 0) ::
            (reflectionArtifacts demoExternals (demoSwitches false [0, 4] "/cwd/full")
                (demoReflector 0) ++
              depfileArtifacts demoExternals (demoSwitches false [0, 4] "/cwd/full")
                (compilerFor demoExternals (demoSwitches false [0, 4] "/cwd/full") [7] 0)))
          (attemptResults n b) ∧
      (b = true ↔ ∀ ok ∈ attemptResults n b, ok = true) :=
  match Main_direct_writes_fail_fast demoExternals demoStageData
    ⟨false, demoSwitches false [0, 4] "/cwd/full"⟩ [7] emptyWorld 0 [4] (demoReflector 0)
    rfl rfl rfl rfl rfl rfl rfl rfl with
  | ⟨b, n, h1, _, h3, _, h5⟩ => ⟨b, n, h1, h3, h5⟩


/-- C6: an empty reflection JSON, reflection header, reflection source or depfile
path disables that artifact. `OutputDepfile` with an empty path does nothing and
returns true; `OutputReflectionData` attempts, fail-fast and in order, the
writes of the enabled reflection artifacts only (`reflectionArtifacts` has no
entry for an empty path), and with all three paths empty it does nothing and
returns true. Consequently, whichever of the four paths are empty, a run whose
compile and writes succeed returns true, and after the packaged step (if any)
its file-system operations are the SPIR-V write, the native-source write (direct
mode) and one write per non-empty optional path, nothing else. -/
theorem Main_skips_disabled_outputs {σ : Type} (ext : Externals)
    (ops : RuntimeStageDataOps σ) (cl : CommandLine) (m : Mapping) (w : World)
    (p : TargetPlatform) (rest : List TargetPlatform) (r : Reflector)
    (hhelp : cl.HasOption_help = false) (hvalid : cl.switches.AreValid = true)
    (hbundle : cl.switches.shader_bundle = "")
    (hsrc : ext.CreateReadOnly (Utf8FromPath cl.switches.source_file_name) = some m)
    (hmode : cl.switches.iplr = true → (OutputIPLR ext ops cl.switches m w).1 = some true)
    (hP : cl.switches.PlatformsToCompile = p :: rest)
    (hc : (compilerFor ext cl.switches m p).IsValid = true)
    (hr : (compilerFor ext cl.switches m p).GetReflector = some r)
    (hok : ∀ a ∈ outputArtifacts ext cl.switches (compilerFor ext cl.switches m p) r,
      ∀ w1, ext.writeSucceeds w1 cl.switches.working_directory a.path a.data = true) :
    (∀ (c : Compiler) (w1 : World), cl.switches.depfile_path = "" →
      OutputDepfile ext c cl.switches w1 = (true, w1)) ∧
    (∀ (c : Compiler) (o : SourceOptions) (w1 : World),
      cl.switches.reflection_json_name = "" → cl.switches.reflection_header_name = "" →
      cl.switches.reflection_cc_name = "" →
      OutputReflectionData ext c cl.switches o w1 = (some true, w1)) ∧
    (∀ (o : SourceOptions) (w1 : World), ∃ (b : Bool) (n : Nat),
      (OutputReflectionData ext (compilerFor ext cl.switches m p) cl.switches o w1).1 = some b ∧
      (if b then n = (reflectionArtifacts ext cl.switches r).length
        else n < (reflectionArtifacts ext cl.switches r).length) ∧
      (OutputReflectionData ext (compilerFor ext cl.switches m p) cl.switches o w1).2.fsops =
        w1.fsops ++ List.zipWith (Artifact.attempt cl.switches.working_directory)
          (reflectionArtifacts ext cl.switches r) (attemptResults n b)) ∧
    (Main ext ops cl w).1 = some true ∧
    (Main ext ops cl w).2.fsops =
      (if cl.switches.iplr then (OutputIPLR ext ops cl.switches m w).2.fsops else w.fsops) ++
        [FsOp.write cl.switches.working_directory (resolved ext cl.switches.spirv_file_name)
            (compilerFor ext cl.switches m p).GetSPIRVAssembly true] ++
        (if cl.switches.iplr then []
          else [FsOp.write cl.switches.working_directory
            (resolved ext cl.switches.sl_file_name)
            (compilerFor ext cl.switches m p).GetSLShaderSource true]) ++
        (if cl.switches.reflection_json_name = "" then []
          else [FsOp.write cl.switches.working_directory
            (resolved ext cl.switches.reflection_json_name) r.GetReflectionJSON true]) ++
        (if cl.switches.reflection_header_name = "" then []
          else [FsOp.write cl.switches.working_directory
            (resolved ext cl.switches.reflection_header_name) r.GetReflectionHeader true]) ++
        (if cl.switches.reflection_cc_name = "" then []
          else [FsOp.write cl.switches.working_directory
            (resolved ext cl.switches.reflection_cc_name) r.GetReflectionCC true]) ++
        (if cl.switches.depfile_path = "" then []
          else [FsOp.write cl.switches.working_directory
            (resolved ext cl.switches.depfile_path)
            ((compilerFor ext cl.switches m p).CreateDepfileContents
              [Utf8FromPath cl.switches.sl_file_name]) true]) := by
  refine ⟨?_, ?_, ?_, ?_⟩
  · intro c w1 hd
    simp [OutputDepfile, hd]
  · intro c o w1 h1 h2 h3
    simp [OutputReflectionData, OutputReflectionData_header, OutputReflectionData_cc,
      h1, h2, h3]
  · intro o w1
    obtain ⟨n, h1, h2, _, _⟩ := writeInOrder_spec ext cl.switches.working_directory
      (reflectionArtifacts ext cl.switches r) w1
    refine ⟨_, n, ?_, h1, ?_⟩
    · rw [OutputReflectionData_eq ext _ cl.switches o r hr]
    · rw [OutputReflectionData_eq ext _ cl.switches o r hr]
      exact h2
  · have hmain : Main ext ops cl w = Main_single ext cl.switches m
        (if cl.switches.iplr then (OutputIPLR ext ops cl.switches m w).2 else w) := by
      cases hi : cl.switches.iplr
      · exact Main_direct_eq ext ops cl m w hhelp hvalid hbundle hsrc hi
      · exact Main_iplr_eq ext ops cl m w hhelp hvalid hbundle hsrc hi (hmode hi)
    have hsingle := Main_single_eq ext cl.switches m
      (if cl.switches.iplr then (OutputIPLR ext ops cl.switches m w).2 else w) p rest r hP hc hr
    have hall := writeInOrder_all_succeed ext cl.switches.working_directory
      (outputArtifacts ext cl.switches (compilerFor ext cl.switches m p) r)
      ((if cl.switches.iplr then (OutputIPLR ext ops cl.switches m w).2 else w).invoke
        (invocationFor ext cl.switches m p)) hok
    rw [hmain, hsingle]
    refine ⟨by rw [hall.1], ?_⟩
    simp only
    rw [hall.2, World.invoke_fsops]
    simp only [outputArtifacts, reflectionArtifacts, reflectionJsonArtifacts,
      reflectionHeaderArtifacts, reflectionCCArtifacts, depfileArtifacts, spirvArtifact,
      slArtifact, Artifact.attempt]
    cases hi : cl.switches.iplr <;>
    by_cases h1 : cl.switches.reflection_json_name = "" <;>
    by_cases h2 : cl.switches.reflection_header_name = "" <;>
    by_cases h3 : cl.switches.reflection_cc_name = "" <;>
    by_cases h4 : cl.switches.depfile_path = "" <;>
    simp [h1, h2, h3, h4]

/-- Witness for C6: direct mode with the reflection header and the depfile
disabled; the run succeeds with four writes. -/
theorem Main_skips_disabled_outputs_witness :
    (Main demoExternals demoStageData ⟨false, demoSwitchesFewer⟩ emptyWorld).1 = some true ∧
    (Main demoExternals demoStageData ⟨false, demoSwitchesFewer⟩ emptyWorld).2.fsops =
      [FsOp.write "/cwd" "/cwd/out.spirv" [10] true,
        FsOp.write "/cwd" "/cwd/out.sl" [11] true,
        FsOp.write "/cwd" "/cwd/out.json" [21] true,
        FsOp.write "/cwd" "/cwd/out.cc" [23] true] :=
  match Main_skips_disabled_outputs demoExternals demoStageData ⟨false, demoSwitchesFewer⟩
    [7] emptyWorld 0 [4] (demoReflector 0) rfl rfl rfl rfl
    (by intro h; cases h) rfl rfl rfl
    (by
      intro a ha w1
      have h : a.path ≠ "/cwd/" ∧ a.path ≠ "/cwd/full" := by
        simp only [outputArtifacts, reflectionArtifacts, reflectionJsonArtifacts,
          reflectionHeaderArtifacts, reflectionCCArtifacts, depfileArtifacts,
          demoSwitchesFewer, demoSwitches] at ha
        simp at ha
        rcases ha with rfl | rfl | rfl | rfl <;> exact ⟨by decide, by decide⟩
      simp [demoExternals, h.1, h.2]) with
  | ⟨_, _, _, h4, h5⟩ => ⟨h4, h5⟩

/-- C7 (amended): `OutputSLFile` has no empty-path guard. Whatever
`sl_file_name` is, also the empty path, it attempts exactly one write, of the
native source to `absolute(current_path() / sl_file_name)`, and returns the
result of that write; and in direct mode, once the SPIR-V write has succeeded,
a failure of that native-source write makes `Main` return false, the two writes
being the only file-system operations of the run. -/
theorem OutputSLFile_always_writes {σ : Type} (ext : Externals)
    (ops : RuntimeStageDataOps σ) (cl : CommandLine) (m : Mapping) (w : World)
    (p : TargetPlatform) (rest : List TargetPlatform)
    (hhelp : cl.HasOption_help = false) (hvalid : cl.switches.AreValid = true)
    (hbundle : cl.switches.shader_bundle = "")
    (hsrc : ext.CreateReadOnly (Utf8FromPath cl.switches.source_file_name) = some m)
    (hiplr : cl.switches.iplr = false)
    (hP : cl.switches.PlatformsToCompile = p :: rest)
    (hc : (compilerFor ext cl.switches m p).IsValid = true) :
    (∀ (c : Compiler) (w1 : World),
      (OutputSLFile ext c cl.switches w1).2.fsops =
        w1.fsops ++ [FsOp.write cl.switches.working_directory
          (ext.absolute (ext.join ext.current_path cl.switches.sl_file_name))
          c.GetSLShaderSource (OutputSLFile ext c cl.switches w1).1] ∧
      (OutputSLFile ext c cl.switches w1).1 =
        ext.writeSucceeds w1 cl.switches.working_directory
          (ext.absolute (ext.join ext.current_path cl.switches.sl_file_name))
          c.GetSLShaderSource) ∧
    ((WriteAtomically ext (w.invoke (invocationFor ext cl.switches m p))
        cl.switches.working_directory
        (ext.absolute (ext.join ext.current_path cl.switches.spirv_file_name))
        (compilerFor ext cl.switches m p).GetSPIRVAssembly).1 = true →
      (OutputSLFile ext (compilerFor ext cl.switches m p) cl.switches
        (WriteAtomically ext (w.invoke (invocationFor ext cl.switches m p))
          cl.switches.working_directory
          (ext.absolute (ext.join ext.current_path cl.switches.spirv_file_name))
          (compilerFor ext cl.switches m p).GetSPIRVAssembly).2).1 = false →
      (Main ext ops cl w).1 = some false ∧
      (Main ext ops cl w).2.fsops =
        w.fsops ++
          [FsOp.write cl.switches.working_directory
            (ext.absolute (ext.join ext.current_path cl.switches.spirv_file_name))
            (compilerFor ext cl.switches m p).GetSPIRVAssembly true,
          FsOp.write cl.switches.working_directory
            (ext.absolute (ext.join ext.current_path cl.switches.sl_file_name))
            (compilerFor ext cl.switches m p).GetSLShaderSource false]) := by
  have hsl : ∀ (c : Compiler) (w1 : World),
      (OutputSLFile ext c cl.switches w1).2.fsops =
        w1.fsops ++ [FsOp.write cl.switches.working_directory
          (ext.absolute (ext.join ext.current_path cl.switches.sl_file_name))
          c.GetSLShaderSource (OutputSLFile ext c cl.switches w1).1] ∧
      (OutputSLFile ext c cl.switches w1).1 =
        ext.writeSucceeds w1 cl.switches.working_directory
          (ext.absolute (ext.join ext.current_path cl.switches.sl_file_name))
          c.GetSLShaderSource := by
    intro c w1
    simp only [OutputSLFile, WriteAtomically, Utf8FromPath]
    cases ext.writeSucceeds w1 cl.switches.working_directory
      (ext.absolute (ext.join ext.current_path cl.switches.sl_file_name))
      c.GetSLShaderSource <;> exact ⟨rfl, rfl⟩
  refine ⟨hsl, ?_⟩
  intro h1 h2
  have h3 := (hsl (compilerFor ext cl.switches m p)
    (WriteAtomically ext (w.invoke (invocationFor ext cl.switches m p))
      cl.switches.working_directory
      (ext.absolute (ext.join ext.current_path cl.switches.spirv_file_name))
      (compilerFor ext cl.switches m p).GetSPIRVAssembly).2).1
  rw [h2] at h3
  have h4 : (WriteAtomically ext (w.invoke (invocationFor ext cl.switches m p))
      cl.switches.working_directory
      (ext.absolute (ext.join ext.current_path cl.switches.spirv_file_name))
      (compilerFor ext cl.switches m p).GetSPIRVAssembly).2.fsops =
      w.fsops ++ [FsOp.write cl.switches.working_directory
        (ext.absolute (ext.join ext.current_path cl.switches.spirv_file_name))
        (compilerFor ext cl.switches m p).GetSPIRVAssembly true] := by
    have : ext.writeSucceeds (w.invoke (invocationFor ext cl.switches m p))
        cl.switches.working_directory
        (ext.absolute (ext.join ext.current_path cl.switches.spirv_file_name))
        (compilerFor ext cl.switches m p).GetSPIRVAssembly = true := h1
    simp only [WriteAtomically, this, World.invoke_fsops]
  rw [Main_direct_eq ext ops cl m w hhelp hvalid hbundle hsrc hiplr]
  simp only [Main_single, hP, hc, Main_outputs, Utf8FromPath, h1, hiplr, h2, Bool.not_true,
    Bool.not_false, Bool.false_eq_true, if_false, if_true]
  refine ⟨trivial, ?_⟩
  rw [h3, h4]
  simp

/-- Witness for C7 (amended): direct mode with the native-source path `/cwd/full`,
where the write fails after the SPIR-V write succeeded. -/
theorem OutputSLFile_always_writes_witness :
    (Main demoExternals demoStageData ⟨false, demoSwitches false [0, 4] "/cwd/full"⟩
      emptyWorld).1 = some false ∧
    (Main demoExternals demoStageData ⟨false, demoSwitches false [0, 4] "/cwd/full"⟩
      emptyWorld).2.fsops =
      [FsOp.write "/cwd" "/cwd/out.spirv" [10] true,
        FsOp.write "/cwd" "/cwd/full" [11] false] :=
  (OutputSLFile_always_writes demoExternals demoStageData
    ⟨false, demoSwitches false [0, 4] "/cwd/full"⟩ [7] emptyWorld 0 [4]
    rfl rfl rfl rfl rfl rfl rfl).2 rfl rfl

/-- Counterexample to C7 as stated: in direct mode with an empty `sl_file_name`,
`OutputSLFile` attempts a write (to the directory `/cwd/`) and returns false
when that write fails, and `Main` returns false. -/
theorem OutputSLFile_empty_path_counterexample :
    (demoSwitches false [0] "").sl_file_name = "" ∧
    (OutputSLFile demoExternals (compilerFor demoExternals (demoSwitches false [0] "") [7] 0)
      (demoSwitches false [0] "") emptyWorld).1 = false ∧
    (OutputSLFile demoExternals (compilerFor demoExternals (demoSwitches false [0] "") [7] 0)
      (demoSwitches false [0] "") emptyWorld).2.fsops =
      [FsOp.write "/cwd" "/cwd/" [11] false] ∧
    (Main demoExternals demoStageData ⟨false, demoSwitches false [0] ""⟩ emptyWorld).1 =
      some false ∧
    (Main demoExternals demoStageData ⟨false, demoSwitches false [0] ""⟩ emptyWorld).2.fsops =
      [FsOp.write "/cwd" "/cwd/out.spirv" [10] true, FsOp.write "/cwd" "/cwd/" [11] false] := by
  refine ⟨rfl, rfl, rfl, rfl, rfl⟩


/-- In packaged mode, when `OutputIPLR` returns false, `Main` returns false in the
world `OutputIPLR` left. -/
theorem Main_iplr_false_eq {σ : Type} (ext : Externals) (ops : RuntimeStageDataOps σ)
    (cl : CommandLine) (m : Mapping) (w : World)
    (hhelp : cl.HasOption_help = false) (hvalid : cl.switches.AreValid = true)
    (hbundle : cl.switches.shader_bundle = "")
    (hsrc : ext.CreateReadOnly (Utf8FromPath cl.switches.source_file_name) = some m)
    (hiplr : cl.switches.iplr = true)
    (hout : (OutputIPLR ext ops cl.switches m w).1 = some false) :
    Main ext ops cl w = OutputIPLR ext ops cl.switches m w := by
  unfold Main
  simp only [hhelp, hvalid, hbundle, hsrc, hiplr, Bool.not_true, Bool.false_eq_true,
    if_false, if_true, ne_eq, not_true_eq_false]
  rcases ho : OutputIPLR ext ops cl.switches m w with ⟨b, w1⟩
  rw [ho] at hout
  simp only at hout
  subst hout
  rfl

/-- C8 (the code at the failing input): in packaged mode with the relative output
path `out.iplr` and working directory `/cwd`, `OutputIPLR` hands the atomic-write
primitive the configured path `out.iplr` as it was supplied, not the resolved
path `absolute(current_path() / "out.iplr")`, which is `/cwd/out.iplr`; the
direct-mode writes of the same environment all carry resolved paths. -/
theorem OutputIPLR_writes_unresolved_path :
    (OutputIPLR demoExternals demoStageData (demoSwitches true [0] "out.iplr") [7]
      emptyWorld).2.fsops =
      [FsOp.write "/cwd" "out.iplr" [0, 0] true, FsOp.permissions "out.iplr" true] ∧
    resolved demoExternals (demoSwitches true [0] "out.iplr").sl_file_name = "/cwd/out.iplr" ∧
    (Main demoExternals demoStageData ⟨false, demoSwitches false [0] "out.iplr"⟩
      emptyWorld).2.fsops =
      [FsOp.write "/cwd" "/cwd/out.spirv" [10] true,
        FsOp.write "/cwd" "/cwd/out.iplr" [11] true,
        FsOp.write "/cwd" "/cwd/out.json" [21] true,
        FsOp.write "/cwd" "/cwd/out.h" [22] true,
        FsOp.write "/cwd" "/cwd/out.cc" [23] true,
        FsOp.write "/cwd" "/cwd/out.d" [12] true] := by
  refine ⟨rfl, rfl, rfl⟩

/-- C9: in packaged (iplr) mode with an empty platform list the aggregator is
still empty when its serialization is requested, the serialization fails, and
the run fails cleanly: `OutputIPLR` and `Main` return false, no compiler is
constructed and no file is written. -/
theorem Main_iplr_empty_platform_list (ext : Externals)
    (encode encodeJson : List Shader → Option Mapping) (cl : CommandLine) (m : Mapping)
    (w : World)
    (hhelp : cl.HasOption_help = false) (hvalid : cl.switches.AreValid = true)
    (hbundle : cl.switches.shader_bundle = "")
    (hsrc : ext.CreateReadOnly (Utf8FromPath cl.switches.source_file_name) = some m)
    (hiplr : cl.switches.iplr = true)
    (hP : cl.switches.PlatformsToCompile = []) :
    (OutputIPLR ext (specRuntimeStageData encode encodeJson) cl.switches m w).1 = some false ∧
    (Main ext (specRuntimeStageData encode encodeJson) cl w).1 = some false ∧
    (Main ext (specRuntimeStageData encode encodeJson) cl w).2.fsops = w.fsops ∧
    (Main ext (specRuntimeStageData encode encodeJson) cl w).2.files = w.files ∧
    (Main ext (specRuntimeStageData encode encodeJson) cl w).2.compiles = w.compiles := by
  have hO : OutputIPLR ext (specRuntimeStageData encode encodeJson) cl.switches m w =
      (some false, w.err "Runtime stage data could not be created.") := by
    unfold OutputIPLR
    simp only [hiplr, hP, OutputIPLR_loop, stageDataMapping, specRuntimeStageData,
      Bool.not_true, Bool.false_eq_true, if_false, List.isEmpty_nil, if_true, ite_self]
  have hmain := Main_iplr_false_eq ext (specRuntimeStageData encode encodeJson) cl m w
    hhelp hvalid hbundle hsrc hiplr (by rw [hO])
  rw [hmain, hO]
  exact ⟨rfl, rfl, rfl, rfl, rfl⟩

/-- Witness for C9: packaged mode with no platform, over encoders that never
fail. -/
theorem Main_iplr_empty_platform_list_witness :
    (OutputIPLR demoExternals (specRuntimeStageData (fun s => some (s.map Shader.target_platform))
        (fun s => some (s.map Shader.target_platform)))
      (demoSwitches true [] "out.iplr") [7] emptyWorld).1 = some false ∧
    (Main demoExternals (specRuntimeStageData (fun s => some (s.map Shader.target_platform))
        (fun s => some (s.map Shader.target_platform)))
      ⟨false, demoSwitches true [] "out.iplr"⟩ emptyWorld).1 = some false ∧
    (Main demoExternals (specRuntimeStageData (fun s => some (s.map Shader.target_platform))
        (fun s => some (s.map Shader.target_platform)))
      ⟨false, demoSwitches true [] "out.iplr"⟩ emptyWorld).2.fsops = emptyWorld.fsops ∧
    (Main demoExternals (specRuntimeStageData (fun s => some (s.map Shader.target_platform))
        (fun s => some (s.map Shader.target_platform)))
      ⟨false, demoSwitches true [] "out.iplr"⟩ emptyWorld).2.files = emptyWorld.files ∧
    (Main demoExternals (specRuntimeStageData (fun s => some (s.map Shader.target_platform))
        (fun s => some (s.map Shader.target_platform)))
      ⟨false, demoSwitches true [] "out.iplr"⟩ emptyWorld).2.compiles = emptyWorld.compiles :=
  Main_iplr_empty_platform_list demoExternals _ _ ⟨false, demoSwitches true [] "out.iplr"⟩ [7]
    emptyWorld rfl rfl rfl rfl rfl rfl

/-- C10 (amended): in packaged (iplr) mode `OutputIPLR` ends in one of three ways: it
calls no file-system primitive; or the bundle write fails; or the bundle write
to `sl_file_name` succeeds and is followed at once by `SetPermissiveAccess` on
`sl_file_name`, whose result is the result of `OutputIPLR`. So the fix-up is
attempted after every successful bundle write, and whenever `OutputIPLR`
returns true the file at the output path holds the bundle with the fixed mode
0644, whatever the creation mode was. When the fix-up fails the bundle stays
written with its creation mode, `OutputIPLR` returns false, and `Main` returns
false in that very state. -/
theorem OutputIPLR_fixes_permissions_after_write {σ : Type} (ext : Externals)
    (ops : RuntimeStageDataOps σ) (cl : CommandLine) (m : Mapping) (w : World)
    (hhelp : cl.HasOption_help = false) (hvalid : cl.switches.AreValid = true)
    (hbundle : cl.switches.shader_bundle = "")
    (hsrc : ext.CreateReadOnly (Utf8FromPath cl.switches.source_file_name) = some m)
    (hiplr : cl.switches.iplr = true) :
    (((OutputIPLR ext ops cl.switches m w).1 = some false ∧
        (OutputIPLR ext ops cl.switches m w).2.fsops = w.fsops ∧
        (OutputIPLR ext ops cl.switches m w).2.files = w.files) ∨
      (∃ d, (OutputIPLR ext ops cl.switches m w).1 = some false ∧
        (OutputIPLR ext ops cl.switches m w).2.fsops =
          w.fsops ++ [FsOp.write cl.switches.working_directory cl.switches.sl_file_name d false] ∧
        (OutputIPLR ext ops cl.switches m w).2.files = w.files) ∨
      (∃ d ok, (OutputIPLR ext ops cl.switches m w).1 = some ok ∧
        (OutputIPLR ext ops cl.switches m w).2.fsops =
          w.fsops ++ [FsOp.write cl.switches.working_directory cl.switches.sl_file_name d true,
            FsOp.permissions cl.switches.sl_file_name ok] ∧
        (OutputIPLR ext ops cl.switches m w).2.files cl.switches.sl_file_name =
          some ⟨d, if ok then permissiveMode else ext.creationMode⟩)) ∧
    ((OutputIPLR ext ops cl.switches m w).1 = some false →
      Main ext ops cl w = OutputIPLR ext ops cl.switches m w) :=
  ⟨OutputIPLR_cases ext ops cl.switches m w hiplr,
    Main_iplr_false_eq ext ops cl m w hhelp hvalid hbundle hsrc hiplr⟩

/-- Witness for C10 (amended): packaged mode on platform `0`; the bundle is written
and the fix-up succeeds. -/
theorem OutputIPLR_fixes_permissions_after_write_witness :
    (OutputIPLR demoExternals demoStageData (demoSwitches true [0] "out.iplr") [7]
      emptyWorld).1 = some true ∧
    (OutputIPLR demoExternals demoStageData (demoSwitches true [0] "out.iplr") [7]
      emptyWorld).2.files "out.iplr" = some ⟨[0, 0], 0o644⟩ ∧
    ((OutputIPLR demoExternals demoStageData (demoSwitches true [0] "out.iplr") [7]
        emptyWorld).1 = some false →
      Main demoExternals demoStageData ⟨false, demoSwitches true [0] "out.iplr"⟩ emptyWorld =
        OutputIPLR demoExternals demoStageData (demoSwitches true [0] "out.iplr") [7]
          emptyWorld) :=
  ⟨rfl, rfl, (OutputIPLR_fixes_permissions_after_write demoExternals demoStageData
    ⟨false, demoSwitches true [0] "out.iplr"⟩ [7] emptyWorld rfl rfl rfl rfl rfl).2⟩

/-- Counterexample to C10 as stated: in packaged mode with output path
`locked.iplr` the bundle write succeeds and the permission change fails;
`OutputIPLR` and `Main` return false, and at the end of the run the bundle is at
`locked.iplr` with the creation mode 0600, not the fixed mode 0644. -/
theorem OutputIPLR_failed_fixup_counterexample :
    (OutputIPLR demoExternals demoStageData (demoSwitches true [0] "locked.iplr") [7]
      emptyWorld).2.fsops =
      [FsOp.write "/cwd" "locked.iplr" [0, 0] true, FsOp.permissions "locked.iplr" false] ∧
    (Main demoExternals demoStageData ⟨false, demoSwitches true [0] "locked.iplr"⟩
      emptyWorld).1 = some false ∧
    (Main demoExternals demoStageData ⟨false, demoSwitches true [0] "locked.iplr"⟩
      emptyWorld).2.fsops =
      [FsOp.write "/cwd" "locked.iplr" [0, 0] true, FsOp.permissions "locked.iplr" false] ∧
    (Main demoExternals demoStageData ⟨false, demoSwitches true [0] "locked.iplr"⟩
      emptyWorld).2.files "locked.iplr" = some ⟨[0, 0], 0o600⟩ ∧
    (0o600 : Nat) ≠ permissiveMode := by
  refine ⟨rfl, rfl, rfl, rfl, by decide⟩


/-- C11: `Main` constructs a compiler or calls a file-system primitive only if help
was not requested, the switches are valid and, when there is no shader-bundle
spec, the source file could be mapped. With the help option `Main` returns
true; otherwise with invalid switches it returns false; otherwise, with no
shader-bundle spec and a source file that cannot be opened, it returns false;
in each of the three cases no compiler is constructed, no file-system primitive
is called and the file store is as before. -/
theorem Main_exits_before_any_work {σ : Type} (ext : Externals)
    (ops : RuntimeStageDataOps σ) (cl : CommandLine) (w : World) :
    (cl.HasOption_help = true →
      (Main ext ops cl w).1 = some true ∧
      (Main ext ops cl w).2.compiles = w.compiles ∧
      (Main ext ops cl w).2.fsops = w.fsops ∧
      (Main ext ops cl w).2.files = w.files) ∧
    (cl.HasOption_help = false → cl.switches.AreValid = false →
      (Main ext ops cl w).1 = some false ∧
      (Main ext ops cl w).2.compiles = w.compiles ∧
      (Main ext ops cl w).2.fsops = w.fsops ∧
      (Main ext ops cl w).2.files = w.files) ∧
    (cl.HasOption_help = false → cl.switches.AreValid = true →
      cl.switches.shader_bundle = "" →
      ext.CreateReadOnly (Utf8FromPath cl.switches.source_file_name) = none →
      (Main ext ops cl w).1 = some false ∧
      (Main ext ops cl w).2.compiles = w.compiles ∧
      (Main ext ops cl w).2.fsops = w.fsops ∧
      (Main ext ops cl w).2.files = w.files) ∧
    ((Main ext ops cl w).2.compiles ≠ w.compiles ∨ (Main ext ops cl w).2.fsops ≠ w.fsops →
      cl.HasOption_help = false ∧ cl.switches.AreValid = true ∧
      (cl.switches.shader_bundle = "" →
        ∃ m, ext.CreateReadOnly (Utf8FromPath cl.switches.source_file_name) = some m)) := by
  have hhelp : cl.HasOption_help = true →
      Main ext ops cl w = (some true, w.out ext.PrintHelp) := by
    intro h
    unfold Main
    simp [h]
  have hinvalid : cl.HasOption_help = false → cl.switches.AreValid = false →
      Main ext ops cl w =
        (some false, (w.err "Invalid flags specified.").err ext.PrintHelp) := by
    intro h1 h2
    unfold Main
    simp [h1, h2]
  have hsource : cl.HasOption_help = false → cl.switches.AreValid = true →
      cl.switches.shader_bundle = "" →
      ext.CreateReadOnly (Utf8FromPath cl.switches.source_file_name) = none →
      Main ext ops cl w = (some false, w.err "Could not open input file.") := by
    intro h1 h2 h3 h4
    unfold Main
    simp [h1, h2, h3, h4]
  refine ⟨?_, ?_, ?_, ?_⟩
  · intro h
    rw [hhelp h]
    exact ⟨rfl, rfl, rfl, rfl⟩
  · intro h1 h2
    rw [hinvalid h1 h2]
    exact ⟨rfl, rfl, rfl, rfl⟩
  · intro h1 h2 h3 h4
    rw [hsource h1 h2 h3 h4]
    exact ⟨rfl, rfl, rfl, rfl⟩
  · intro hwork
    cases h1 : cl.HasOption_help with
    | true =>
      rw [hhelp h1] at hwork
      rcases hwork with h | h <;> exact absurd rfl h
    | false =>
      cases h2 : cl.switches.AreValid with
      | false =>
        rw [hinvalid h1 h2] at hwork
        rcases hwork with h | h <;> exact absurd rfl h
      | true =>
        refine ⟨rfl, rfl, ?_⟩
        intro h3
        cases h4 : ext.CreateReadOnly (Utf8FromPath cl.switches.source_file_name) with
        | none =>
          rw [hsource h1 h2 h3 h4] at hwork
          rcases hwork with h | h <;> exact absurd rfl h
        | some m => exact ⟨m, rfl⟩

/-- Witness for C11: the help option; switches that are not valid; a source file
that cannot be opened; and a direct-mode run that does work. -/
theorem Main_exits_before_any_work_witness :
    ((Main demoExternals demoStageData ⟨true, demoSwitches false [0, 4] "out.sl"⟩
        emptyWorld).1 = some true ∧
      (Main demoExternals demoStageData ⟨true, demoSwitches false [0, 4] "out.sl"⟩
        emptyWorld).2.compiles = emptyWorld.compiles ∧
      (Main demoExternals demoStageData ⟨true, demoSwitches false [0, 4] "out.sl"⟩
        emptyWorld).2.fsops = emptyWorld.fsops ∧
      (Main demoExternals demoStageData ⟨true, demoSwitches false [0, 4] "out.sl"⟩
        emptyWorld).2.files = emptyWorld.files) ∧
    ((Main demoExternals demoStageData ⟨false, demoSwitchesInvalid⟩ emptyWorld).1 =
        some false ∧
      (Main demoExternals demoStageData ⟨false, demoSwitchesInvalid⟩ emptyWorld).2.compiles =
        emptyWorld.compiles ∧
      (Main demoExternals demoStageData ⟨false, demoSwitchesInvalid⟩ emptyWorld).2.fsops =
        emptyWorld.fsops ∧
      (Main demoExternals demoStageData ⟨false, demoSwitchesInvalid⟩ emptyWorld).2.files =
        emptyWorld.files) ∧
    ((Main demoExternals demoStageData ⟨false, demoSwitchesMissing⟩ emptyWorld).1 =
        some false ∧
      (Main demoExternals demoStageData ⟨false, demoSwitchesMissing⟩ emptyWorld).2.compiles =
        emptyWorld.compiles ∧
      (Main demoExternals demoStageData ⟨false, demoSwitchesMissing⟩ emptyWorld).2.fsops =
        emptyWorld.fsops ∧
      (Main demoExternals demoStageData ⟨false, demoSwitchesMissing⟩ emptyWorld).2.files =
        emptyWorld.files) ∧
    ((⟨false, demoSwitches false [0, 4] "out.sl"⟩ : CommandLine).HasOption_help = false ∧
      (demoSwitches false [0, 4] "out.sl").AreValid = true ∧
      ((demoSwitches false [0, 4] "out.sl").shader_bundle = "" →
        ∃ m, demoExternals.CreateReadOnly
          (Utf8FromPath (demoSwitches false [0, 4] "out.sl").source_file_name) = some m)) :=
  ⟨(Main_exits_before_any_work demoExternals demoStageData
      ⟨true, demoSwitches false [0, 4] "out.sl"⟩ emptyWorld).1 rfl,
    (Main_exits_before_any_work demoExternals demoStageData
      ⟨false, demoSwitchesInvalid⟩ emptyWorld).2.1 rfl rfl,
    (Main_exits_before_any_work demoExternals demoStageData
      ⟨false, demoSwitchesMissing⟩ emptyWorld).2.2.1 rfl rfl rfl rfl,
    (Main_exits_before_any_work demoExternals demoStageData
      ⟨false, demoSwitches false [0, 4] "out.sl"⟩ emptyWorld).2.2.2 (Or.inl (by decide))⟩


end impeller.compiler
